import Mathlib

/-!
Verification of the CXSA_MCP repository: a shallow embedding in Lean 4 of the
read-only SQLite repository layer (app/repository.py), the MCP tool dispatch
table (app/mcp_server.py) and the Gemini agent loop (client.py), together with
theorems settling the frozen claims about them.

Modelling conventions.

The SQLite database is modelled as a record of five lists (one per table),
mirroring the schema in app/db.py.  A SQL query becomes a Lean function over
that record: WHERE becomes List.filter, a point lookup by primary key becomes
List.find?, ORDER BY becomes an insertion sort on the relevant key, GROUP BY
becomes grouping over the keys in order of first appearance, and LEFT JOIN
becomes an Option-valued lookup.

Timestamps (created_at, ordered_at, logged_at, resolved_at) are TEXT ISO-8601
columns in the schema; the spec guarantees they are comparable lexicographic
ISO-8601 strings, and the queries only ever compare them or convert them with
julianday before taking differences.  Both views factor through the monotone
map from ISO-8601 strings to julian-day numbers, so the embedding represents a
timestamp directly by its julian-day value, a rational number; an hour span is
then (t2 - t1) * 24, exactly as in the SQL.

SQLite aggregates over an empty set of rows (SUM, AVG, MIN, MAX) yield NULL,
modelled by Option; COUNT yields 0.  ROUND(x, n) is modelled by rounding
x * 10^n to the nearest integer.  The serialisation of results through
json.dumps and mcp TextContent wrappers is value-preserving and is elided:
dispatch returns the structured payload itself.
-/

/-- SQLite ROUND(x, 1): x rounded to one decimal place. -/
def round1 (x : ℚ) : ℚ := (round (10 * x) : ℤ) / 10

/-- SQLite ROUND(x, 2): x rounded to two decimal places. -/
def round2 (x : ℚ) : ℚ := (round (100 * x) : ℤ) / 100

/-- SQL MIN over a group of values: none on the empty group. -/
def sqlMin (l : List ℚ) : Option ℚ := l.min?

/-- SQL MAX over a group of values: none on the empty group. -/
def sqlMax (l : List ℚ) : Option ℚ := l.max?

/-- SQL SUM over a group: NULL (none) on the empty group. -/
def sqlSum (l : List ℚ) : Option ℚ := if l.isEmpty then none else some l.sum

/-- SQL AVG over a group: NULL (none) on the empty group. -/
def sqlAvg (l : List ℚ) : Option ℚ :=
  if l.isEmpty then none else some (l.sum / l.length)

/-- ORDER BY key ASC, modelled as an insertion sort (a stable comparison sort,
like the order SQLite produces). -/
def sortAscBy {α : Type} {β : Type} [LinearOrder β] (key : α → β) (l : List α) : List α :=
  @List.insertionSort α (fun a b => key a ≤ key b)
    (fun a b => inferInstanceAs (Decidable (key a ≤ key b))) l

/-- ORDER BY key DESC, modelled as an insertion sort with the order reversed. -/
def sortDescBy {α : Type} {β : Type} [LinearOrder β] (key : α → β) (l : List α) : List α :=
  @List.insertionSort α (fun a b => key b ≤ key a)
    (fun a b => inferInstanceAs (Decidable (key b ≤ key a))) l

/-- GROUP BY keys, in order of first appearance in the row list. -/
def groupKeys {α : Type} {κ : Type} [DecidableEq κ] (key : α → κ) (l : List α) : List κ :=
  l.foldl (fun acc a => if key a ∈ acc then acc else acc ++ [key a]) []

/-- Python truthiness of an optional string (None and the empty string are
falsy): the repository filter helpers use
if status: patterns, so an empty-string filter value is treated as absent. -/
def truthyStr (o : Option String) : Option String :=
  match o with
  | none => none
  | some s => if s.isEmpty then none else some s

/-- Python truthiness of a nullable integer column (None and 0 are falsy), as
used by if order_id: in get_complaint_context_logs. -/
def truthyInt (o : Option ℤ) : Bool :=
  match o with
  | none => false
  | some n => n != 0

/-- Case-insensitive (ASCII, as in SQLite LIKE) substring test on char lists. -/
def charsStartWith : List Char → List Char → Bool
  | _, [] => true
  | [], _ :: _ => false
  | a :: as, b :: bs => a == b && charsStartWith as bs

/-- Unanchored substring occurrence test on char lists. -/
def charsContain : List Char → List Char → Bool
  | [], needle => needle.isEmpty
  | hay@(_ :: rest), needle => charsStartWith hay needle || charsContain rest needle

/-- SQL column LIKE the pattern percent-keyword-percent, case-insensitively:
an unanchored, ASCII-case-insensitive substring match. -/
def likeContains (hay keyword : String) : Bool :=
  charsContain (hay.data.map Char.toLower) (keyword.data.map Char.toLower)

/-- A row of the users table (schema in app/db.py). -/
structure UserR where
  id : ℤ
  name : String
  email : String
  phone : Option String
  address_line : Option String
  city : Option String
  state : Option String
  zip_code : Option String
  country : String
  created_at : ℚ
deriving DecidableEq, Repr

/-- A row of the orders table (schema in app/db.py). -/
structure OrderR where
  id : ℤ
  user_id : ℤ
  item : String
  quantity : ℤ
  unit_price : ℚ
  total_amount : ℚ
  status : String
  payment_method : Option String
  shipping_address : Option String
  tracking_number : Option String
  ordered_at : ℚ
deriving DecidableEq, Repr

/-- A row of the complaints table (schema in app/db.py). -/
structure ComplaintR where
  id : ℤ
  user_id : ℤ
  order_id : Option ℤ
  category : String
  priority : String
  status : String
  subject : String
  details : String
  resolution : Option String
  assigned_to : Option String
  created_at : ℚ
  resolved_at : Option ℚ
deriving DecidableEq, Repr

/-- A row of the payment_logs table (schema in app/db.py). -/
structure PaymentLog where
  id : ℤ
  order_id : ℤ
  transaction_id : String
  event_type : String
  amount : ℚ
  currency : String
  gateway : String
  status : String
  error_message : Option String
  logged_at : ℚ
deriving DecidableEq, Repr

/-- A row of the logistics_logs table (schema in app/db.py). -/
structure LogisticsLog where
  id : ℤ
  order_id : ℤ
  tracking_number : Option String
  carrier : String
  event_type : String
  location : Option String
  notes : Option String
  logged_at : ℚ
deriving DecidableEq, Repr

/-- One consistent snapshot of the five tables: the read-only store every
repository query runs against. -/
structure Store where
  users : List UserR
  orders : List OrderR
  complaints : List ComplaintR
  payment_logs : List PaymentLog
  logistics_logs : List LogisticsLog
deriving Repr

/-- Schema integrity of a snapshot: primary keys are AUTOINCREMENT values
(hence at least 1) and the enforced foreign keys (PRAGMA foreign_keys=ON)
resolve: every complaint references an existing user, and an existing order
when its order_id is non-null. -/
def Store.WF (s : Store) : Prop :=
  (∀ u ∈ s.users, 1 ≤ u.id) ∧
  (∀ o ∈ s.orders, 1 ≤ o.id) ∧
  (∀ c ∈ s.complaints, (∃ u ∈ s.users, u.id = c.user_id) ∧
    ∀ oid ∈ c.order_id.toList, ∃ o ∈ s.orders, o.id = oid)

/-! ## Repository queries (app/repository.py)

Each public repository function opens and closes its own connection through
the with_conn decorator (modelled separately below for the resource claim);
here the connection argument is replaced by the store snapshot it reads. -/

/-- repository.list_users: SELECT * FROM users ORDER BY id. -/
def list_users (s : Store) : List UserR :=
  sortAscBy (fun u => u.id) s.users

/-- repository.get_user_by_id: SELECT * FROM users WHERE id = ?. -/
def get_user_by_id (s : Store) (user_id : ℤ) : Option UserR :=
  s.users.find? (fun u => u.id == user_id)

/-- repository.search_users: name or email LIKE percent-keyword-percent,
ORDER BY id. -/
def search_users (s : Store) (keyword : String) : List UserR :=
  sortAscBy (fun u => u.id)
    (s.users.filter (fun u => likeContains u.name keyword || likeContains u.email keyword))

/-- repository.list_orders with its optional filters (user_id compared with
is-not-None, the two string filters with Python truthiness), ORDER BY
ordered_at DESC. -/
def list_orders (s : Store) (user_id : Option ℤ) (status : Option String)
    (payment_method : Option String) : List OrderR :=
  sortDescBy (fun o => o.ordered_at)
    (s.orders.filter (fun o =>
      (match user_id with | none => true | some uid => o.user_id == uid) &&
      (match truthyStr status with | none => true | some st => o.status == st) &&
      (match truthyStr payment_method with
       | none => true
       | some pm => o.payment_method == some pm)))

/-- repository.get_order_by_id: SELECT * FROM orders WHERE id = ?. -/
def get_order_by_id (s : Store) (order_id : ℤ) : Option OrderR :=
  s.orders.find? (fun o => o.id == order_id)

/-- repository.get_orders_by_date_range: ordered_at between the two inclusive
bounds, ORDER BY ordered_at.  The bounds are ISO-8601 strings in the source,
represented by their julian-day values (the parameter stop is the SQL
parameter named end, a reserved word here). -/
def get_orders_by_date_range (s : Store) (start stop : ℚ) : List OrderR :=
  sortAscBy (fun o => o.ordered_at)
    (s.orders.filter (fun o => start ≤ o.ordered_at && o.ordered_at ≤ stop))

/-- repository.get_order_by_tracking: SELECT * FROM orders WHERE
tracking_number = ?. -/
def get_order_by_tracking (s : Store) (tracking_number : String) : Option OrderR :=
  s.orders.find? (fun o => o.tracking_number == some tracking_number)

/-- repository.list_complaints with its five optional filters, ORDER BY
created_at DESC. -/
def list_complaints (s : Store) (user_id : Option ℤ) (status : Option String)
    (category : Option String) (priority : Option String)
    (assigned_to : Option String) : List ComplaintR :=
  sortDescBy (fun c => c.created_at)
    (s.complaints.filter (fun c =>
      (match user_id with | none => true | some uid => c.user_id == uid) &&
      (match truthyStr status with | none => true | some v => c.status == v) &&
      (match truthyStr category with | none => true | some v => c.category == v) &&
      (match truthyStr priority with | none => true | some v => c.priority == v) &&
      (match truthyStr assigned_to with
       | none => true
       | some v => c.assigned_to == some v)))

/-- repository.get_complaint_by_id: SELECT * FROM complaints WHERE id = ?. -/
def get_complaint_by_id (s : Store) (complaint_id : ℤ) : Option ComplaintR :=
  s.complaints.find? (fun c => c.id == complaint_id)

/-- repository.get_complaints_for_order: complaints WHERE order_id = ?
(a NULL order_id never matches), ORDER BY created_at. -/
def get_complaints_for_order (s : Store) (order_id : ℤ) : List ComplaintR :=
  sortAscBy (fun c => c.created_at)
    (s.complaints.filter (fun c => c.order_id == some order_id))

/-- repository.search_complaints: subject or details LIKE
percent-keyword-percent, ORDER BY created_at DESC. -/
def search_complaints (s : Store) (keyword : String) : List ComplaintR :=
  sortDescBy (fun c => c.created_at)
    (s.complaints.filter (fun c =>
      likeContains c.subject keyword || likeContains c.details keyword))

/-- repository.get_high_priority_open_complaints: priority IN (high, critical)
AND status IN (open, investigating), ORDER BY priority DESC, created_at.  The
two-key sort is the stable sort on the second key applied after the sort on
the first from the right. -/
def get_high_priority_open_complaints (s : Store) : List ComplaintR :=
  sortDescBy (fun c => c.priority)
    (sortAscBy (fun c => c.created_at)
      (s.complaints.filter (fun c =>
        (c.priority == "high" || c.priority == "critical") &&
        (c.status == "open" || c.status == "investigating"))))

/-- Result row of repository.get_user_summary: the user row merged with its
order and complaint aggregates. -/
structure UserSummaryR where
  user : UserR
  total_orders : ℕ
  total_spent : ℚ
  delivered : ℕ
  returned : ℕ
  cancelled : ℕ
  total_complaints : ℕ
  open_complaints : ℕ
  high_priority : ℕ
deriving Repr

/-- repository.get_user_summary: None for a missing user, otherwise the user
row with COUNT/COALESCE(SUM,0)/conditional-COUNT aggregates over the orders
and complaints of that user. -/
def get_user_summary (s : Store) (user_id : ℤ) : Option UserSummaryR :=
  (s.users.find? (fun u => u.id == user_id)).map (fun u =>
    let os := s.orders.filter (fun o => o.user_id == user_id)
    let cs := s.complaints.filter (fun c => c.user_id == user_id)
    { user := u
      total_orders := os.length
      total_spent := (os.map (fun o => o.total_amount)).sum
      delivered := os.countP (fun o => o.status == "delivered")
      returned := os.countP (fun o => o.status == "returned")
      cancelled := os.countP (fun o => o.status == "cancelled")
      total_complaints := cs.length
      open_complaints := cs.countP (fun c =>
        c.status == "open" || c.status == "investigating" || c.status == "waiting_customer")
      high_priority := cs.countP (fun c =>
        c.priority == "high" || c.priority == "critical") })

/-- GROUP BY key with COUNT(*) per group, ORDER BY cnt DESC. -/
def groupCountDesc {α : Type} {κ : Type} [DecidableEq κ] (key : α → κ) (l : List α) :
    List (κ × ℕ) :=
  sortDescBy (fun r => r.2)
    ((groupKeys key l).map (fun k => (k, l.countP (fun a => decide (key a = k)))))

/-- Result of repository.get_complaint_statistics. -/
structure ComplaintStatisticsR where
  by_category : List (String × ℕ)
  by_priority : List (String × ℕ)
  by_status : List (String × ℕ)
  by_agent : List (Option String × ℕ)
deriving Repr

/-- repository.get_complaint_statistics: four COUNT(*) group-bys over
complaints, each ORDER BY cnt DESC. -/
def get_complaint_statistics (s : Store) : ComplaintStatisticsR :=
  { by_category := groupCountDesc (fun c => c.category) s.complaints
    by_priority := groupCountDesc (fun c => c.priority) s.complaints
    by_status := groupCountDesc (fun c => c.status) s.complaints
    by_agent := groupCountDesc (fun c => c.assigned_to) s.complaints }

/-- Result of repository.get_order_statistics: per group the COUNT(*) and the
ROUND(SUM(total_amount),2). -/
structure OrderStatisticsR where
  by_status : List (String × ℕ × ℚ)
  by_payment : List (Option String × ℕ × ℚ)
deriving Repr

/-- repository.get_order_statistics: orders grouped by status and by
payment_method with counts and rounded totals, ORDER BY cnt DESC. -/
def get_order_statistics (s : Store) : OrderStatisticsR :=
  { by_status :=
      sortDescBy (fun r => r.2.1)
        ((groupKeys (fun o => o.status) s.orders).map (fun k =>
          let g := s.orders.filter (fun o => o.status == k)
          (k, g.length, round2 ((g.map (fun o => o.total_amount)).sum))))
    by_payment :=
      sortDescBy (fun r => r.2.1)
        ((groupKeys (fun o => o.payment_method) s.orders).map (fun k =>
          let g := s.orders.filter (fun o => o.payment_method == k)
          (k, g.length, round2 ((g.map (fun o => o.total_amount)).sum)))) }

/-- Result row of repository.correlate_user_issues: one complaint of the user
LEFT JOINed with its order (all order columns null when there is none). -/
structure UserIssueR where
  complaint_id : ℤ
  complaint_subject : String
  complaint_category : String
  complaint_priority : String
  complaint_status : String
  complaint_details : String
  complaint_resolution : Option String
  assigned_to : Option String
  complaint_created_at : ℚ
  order_id : Option ℤ
  order_item : Option String
  order_total : Option ℚ
  order_status : Option String
  tracking_number : Option String
deriving Repr

/-- repository.correlate_user_issues: complaints of the user LEFT JOIN orders
ON c.order_id = o.id, ORDER BY c.created_at DESC. -/
def correlate_user_issues (s : Store) (user_id : ℤ) : List UserIssueR :=
  (sortDescBy (fun c => c.created_at)
      (s.complaints.filter (fun c => c.user_id == user_id))).map (fun c =>
    let ord := c.order_id.bind (fun oid => s.orders.find? (fun o => o.id == oid))
    { complaint_id := c.id
      complaint_subject := c.subject
      complaint_category := c.category
      complaint_priority := c.priority
      complaint_status := c.status
      complaint_details := c.details
      complaint_resolution := c.resolution
      assigned_to := c.assigned_to
      complaint_created_at := c.created_at
      order_id := ord.map (fun o => o.id)
      order_item := ord.map (fun o => o.item)
      order_total := ord.map (fun o => o.total_amount)
      order_status := ord.map (fun o => o.status)
      tracking_number := ord.bind (fun o => o.tracking_number) })

/-- repository.get_payment_logs: optional order and inclusive time-window
filters, ORDER BY logged_at.  The window bounds are ISO-8601 strings in the
source (Python truthiness on the empty string elided by the julian-day
representation). -/
def get_payment_logs (s : Store) (order_id : Option ℤ) (start stop : Option ℚ) :
    List PaymentLog :=
  sortAscBy (fun e => e.logged_at)
    (s.payment_logs.filter (fun e =>
      (match order_id with | none => true | some oid => e.order_id == oid) &&
      (match start with | none => true | some t => t ≤ e.logged_at) &&
      (match stop with | none => true | some t => e.logged_at ≤ t)))

/-- repository.get_logistics_logs: optional order, tracking-number and
inclusive time-window filters, ORDER BY logged_at. -/
def get_logistics_logs (s : Store) (order_id : Option ℤ)
    (tracking_number : Option String) (start stop : Option ℚ) : List LogisticsLog :=
  sortAscBy (fun e => e.logged_at)
    (s.logistics_logs.filter (fun e =>
      (match order_id with | none => true | some oid => e.order_id == oid) &&
      (match truthyStr tracking_number with
       | none => true
       | some tn => e.tracking_number == some tn) &&
      (match start with | none => true | some t => t ≤ e.logged_at) &&
      (match stop with | none => true | some t => e.logged_at ≤ t)))

/-- Result of repository.get_complaint_context_logs. -/
structure ComplaintContextR where
  complaint : ComplaintR
  window_hours : ℤ
  payment_logs : List PaymentLog
  logistics_logs : List LogisticsLog
  order : Option OrderR
  user : Option UserR
deriving Repr

/-- repository.get_complaint_context_logs: fetch the complaint (None when
absent), resolve its user, and when the order_id is truthy fetch the order
and all payment and logistics logs of that order ordered by logged_at.  The
window_hours argument is echoed into the result and used nowhere else, as in
the source. -/
def get_complaint_context_logs (s : Store) (complaint_id : ℤ) (window_hours : ℤ) :
    Option ComplaintContextR :=
  match s.complaints.find? (fun c => c.id == complaint_id) with
  | none => none
  | some c =>
    let user := s.users.find? (fun u => u.id == c.user_id)
    if truthyInt c.order_id then
      let oid := c.order_id.getD 0
      some { complaint := c
             window_hours := window_hours
             payment_logs := sortAscBy (fun e => e.logged_at)
               (s.payment_logs.filter (fun e => e.order_id == oid))
             logistics_logs := sortAscBy (fun e => e.logged_at)
               (s.logistics_logs.filter (fun e => e.order_id == oid))
             order := s.orders.find? (fun o => o.id == oid)
             user := user }
    else
      some { complaint := c
             window_hours := window_hours
             payment_logs := []
             logistics_logs := []
             order := none
             user := user }

/-- Result row of repository.get_revenue_by_city. -/
structure CityRevenueR where
  city : Option String
  order_count : ℕ
  total_revenue : ℚ
  avg_order_value : ℚ
deriving Repr

/-- repository.get_revenue_by_city: orders INNER JOIN users GROUP BY u.city
with COUNT, ROUND(SUM,2) and ROUND(AVG,2), ORDER BY total_revenue DESC. -/
def get_revenue_by_city (s : Store) : List CityRevenueR :=
  let joined := s.orders.filterMap (fun o =>
    (s.users.find? (fun u => u.id == o.user_id)).map (fun u => (o, u)))
  sortDescBy (fun r => r.total_revenue)
    ((groupKeys (fun p => p.2.city) joined).map (fun city =>
      let g := joined.filter (fun p => p.2.city == city)
      let amounts := g.map (fun p => p.1.total_amount)
      { city := city
        order_count := g.length
        total_revenue := round2 amounts.sum
        avg_order_value := round2 (amounts.sum / amounts.length) }))

/-- Result row of repository.get_top_customers. -/
structure TopCustomerR where
  user_id : ℤ
  name : String
  email : String
  city : Option String
  order_count : ℕ
  total_spent : ℚ
  avg_order_value : ℚ
  last_order_at : ℚ
deriving Repr

/-- SQL LIMIT: a negative limit means no limit in SQLite. -/
def sqlLimit {α : Type} (limit : ℤ) (l : List α) : List α :=
  if limit < 0 then l else l.take limit.toNat

/-- repository.get_top_customers: users INNER JOIN orders GROUP BY u.id (so a
user with no orders forms no group), ORDER BY total_spent DESC LIMIT ?. -/
def get_top_customers (s : Store) (limit : ℤ) : List TopCustomerR :=
  sqlLimit limit
    (sortDescBy (fun r => r.total_spent)
      (s.users.filterMap (fun u =>
        let os := s.orders.filter (fun o => o.user_id == u.id)
        if os.isEmpty then none
        else
          let amounts := os.map (fun o => o.total_amount)
          some { user_id := u.id
                 name := u.name
                 email := u.email
                 city := u.city
                 order_count := os.length
                 total_spent := round2 amounts.sum
                 avg_order_value := round2 (amounts.sum / amounts.length)
                 last_order_at := ((os.map (fun o => o.ordered_at)).max?).getD 0 })))

/-- Result row of repository.get_user_lifetime_value. -/
structure LifetimeValueR where
  id : ℤ
  name : String
  email : String
  city : Option String
  state : Option String
  member_since : ℚ
  total_orders : ℕ
  total_spent : ℚ
  avg_order_value : ℚ
  first_order : Option ℚ
  last_order : Option ℚ
  total_complaints : ℕ
  open_complaints : ℕ
deriving Repr

/-- repository.get_user_lifetime_value: the user LEFT JOIN its orders GROUP BY
u.id; COUNT(o.id) is 0 and COALESCE turns the NULL SUM and AVG into 0 when the
user has no orders, while MIN/MAX stay NULL. -/
def get_user_lifetime_value (s : Store) (user_id : ℤ) : Option LifetimeValueR :=
  (s.users.find? (fun u => u.id == user_id)).map (fun u =>
    let os := s.orders.filter (fun o => o.user_id == u.id)
    let amounts := os.map (fun o => o.total_amount)
    let cs := s.complaints.filter (fun c => c.user_id == u.id)
    { id := u.id
      name := u.name
      email := u.email
      city := u.city
      state := u.state
      member_since := u.created_at
      total_orders := os.length
      total_spent := round2 amounts.sum
      avg_order_value := round2 ((sqlAvg amounts).getD 0)
      first_order := sqlMin (os.map (fun o => o.ordered_at))
      last_order := sqlMax (os.map (fun o => o.ordered_at))
      total_complaints := cs.length
      open_complaints := cs.countP (fun c =>
        c.status == "open" || c.status == "investigating" ||
        c.status == "waiting_customer") })

/-- Orders block of repository.get_dashboard_summary (SUM aggregates are NULL
over an empty orders table, COUNT is 0). -/
structure DashboardOrdersR where
  total : ℕ
  total_revenue : Option ℚ
  avg_order_value : Option ℚ
  delivered : Option ℕ
  in_transit : Option ℕ
  pending : Option ℕ
deriving Repr

/-- Complaints block of repository.get_dashboard_summary. -/
structure DashboardComplaintsR where
  total : ℕ
  open_count : Option ℕ
  high_priority : Option ℕ
deriving Repr

/-- Result of repository.get_dashboard_summary. -/
structure DashboardR where
  users_total : ℕ
  orders : DashboardOrdersR
  complaints : DashboardComplaintsR
deriving Repr

/-- repository.get_dashboard_summary: COUNT and SUM aggregates across the
users, orders and complaints tables. -/
def get_dashboard_summary (s : Store) : DashboardR :=
  { users_total := s.users.length
    orders :=
      { total := s.orders.length
        total_revenue := (sqlSum (s.orders.map (fun o => o.total_amount))).map round2
        avg_order_value := (sqlAvg (s.orders.map (fun o => o.total_amount))).map round2
        delivered := if s.orders.isEmpty then none
          else some (s.orders.countP (fun o => o.status == "delivered"))
        in_transit := if s.orders.isEmpty then none
          else some (s.orders.countP (fun o => o.status == "shipped"))
        pending := if s.orders.isEmpty then none
          else some (s.orders.countP (fun o =>
            o.status == "pending" || o.status == "processing")) }
    complaints :=
      { total := s.complaints.length
        open_count := if s.complaints.isEmpty then none
          else some (s.complaints.countP (fun c =>
            c.status == "open" || c.status == "investigating" ||
            c.status == "waiting_customer"))
        high_priority := if s.complaints.isEmpty then none
          else some (s.complaints.countP (fun c =>
            c.priority == "high" || c.priority == "critical")) } }

/-- Result of repository.get_order_fulfillment_timeline.  The SELECT lists in
the source project away the order_id column of each event row; the projection
is modelled by the full rows. -/
structure TimelineR where
  order : OrderR
  payment_events : List PaymentLog
  logistics_events : List LogisticsLog
  complaints : List ComplaintR
deriving Repr

/-- repository.get_order_fulfillment_timeline: None for a missing order,
otherwise the order with its payment events, logistics events and complaints,
each list independently ordered ascending by its own time column. -/
def get_order_fulfillment_timeline (s : Store) (order_id : ℤ) : Option TimelineR :=
  (s.orders.find? (fun o => o.id == order_id)).map (fun o =>
    { order := o
      payment_events := sortAscBy (fun e => e.logged_at)
        (s.payment_logs.filter (fun e => e.order_id == order_id))
      logistics_events := sortAscBy (fun e => e.logged_at)
        (s.logistics_logs.filter (fun e => e.order_id == order_id))
      complaints := sortAscBy (fun c => c.created_at)
        (s.complaints.filter (fun c => c.order_id == some order_id)) })

/-- The per-order subquery MIN(logged_at) of the dispatched logistics events
(shared by get_active_shipments and get_order_delivery_time). -/
def orderDispatchedAt (s : Store) (oid : ℤ) : Option ℚ :=
  sqlMin ((s.logistics_logs.filter (fun e =>
    e.order_id == oid && e.event_type == "dispatched")).map (fun e => e.logged_at))

/-- The per-order subquery MAX over the delivered logistics events
(shared by get_carrier_performance and get_order_delivery_time). -/
def orderDeliveredAt (s : Store) (oid : ℤ) : Option ℚ :=
  sqlMax ((s.logistics_logs.filter (fun e =>
    e.order_id == oid && e.event_type == "delivered")).map (fun e => e.logged_at))

/-- The per-order subquery MIN(logged_at) over all logistics events of the
order (the first_event column of the carrier-performance join). -/
def orderFirstEvent (s : Store) (oid : ℤ) : Option ℚ :=
  sqlMin ((s.logistics_logs.filter (fun e => e.order_id == oid)).map
    (fun e => e.logged_at))

/-- Result row of repository.get_active_shipments. -/
structure ShipmentR where
  order_id : ℤ
  user_id : ℤ
  item : String
  tracking_number : Option String
  shipping_address : Option String
  customer_name : String
  customer_phone : Option String
  carrier : Option String
  latest_event : Option String
  latest_location : Option String
  latest_event_at : Option ℚ
  dispatched_at : Option ℚ
deriving Repr

/-- ORDER BY key DESC on a nullable key: SQLite treats NULL as smallest, so
descending order places the NULL rows last. -/
def sortDescNullsLast {α : Type} (key : α → Option ℚ) (l : List α) : List α :=
  sortDescBy (fun a => (key a).getD 0) (l.filter (fun a => (key a).isSome)) ++
    l.filter (fun a => (key a).isNone)

/-- repository.get_active_shipments: shipped orders INNER JOIN users, LEFT
JOINed with the logistics events carrying the maximal logged_at of the order
(one row per such event, a NULL row when the order has no events) and with the
earliest dispatched event, ORDER BY dispatched_at DESC. -/
def get_active_shipments (s : Store) : List ShipmentR :=
  sortDescNullsLast (fun r => r.dispatched_at)
    ((s.orders.filter (fun o => o.status == "shipped")).flatMap (fun o =>
      ((s.users.find? (fun u => u.id == o.user_id)).map (fun u =>
        let ls := s.logistics_logs.filter (fun e => e.order_id == o.id)
        let latest : List (Option LogisticsLog) :=
          match sqlMax (ls.map (fun e => e.logged_at)) with
          | none => [none]
          | some m => (ls.filter (fun e => e.logged_at == m)).map some
        latest.map (fun ll =>
          { order_id := o.id
            user_id := o.user_id
            item := o.item
            tracking_number := o.tracking_number
            shipping_address := o.shipping_address
            customer_name := u.name
            customer_phone := u.phone
            carrier := ll.map (fun e => e.carrier)
            latest_event := ll.map (fun e => e.event_type)
            latest_location := ll.bind (fun e => e.location)
            latest_event_at := ll.map (fun e => e.logged_at)
            dispatched_at := orderDispatchedAt s o.id }))).getD []))

/-- Detail row of repository.get_complaint_resolution_time_stats. -/
structure ResolutionDetailR where
  category : String
  priority : String
  resolution_hours : ℚ
deriving Repr

/-- Overall block of repository.get_complaint_resolution_time_stats (the
aggregates are NULL when no complaint is resolved). -/
structure ResolutionOverallR where
  resolved_count : ℕ
  avg_hours : Option ℚ
  min_hours : Option ℚ
  max_hours : Option ℚ
deriving Repr

/-- Result of repository.get_complaint_resolution_time_stats. -/
structure ResolutionStatsR where
  overall : ResolutionOverallR
  by_priority : List (String × ℕ × ℚ)
  details : List ResolutionDetailR
deriving Repr

/-- The resolution span of a complaint in hours:
(julianday(resolved_at) - julianday(created_at)) * 24. -/
def resolutionHours (c : ComplaintR) (r : ℚ) : ℚ := (r - c.created_at) * 24

/-- repository.get_complaint_resolution_time_stats: detail rows, overall
aggregates and a by-priority group-by over the complaints with a non-NULL
resolved_at. -/
def get_complaint_resolution_time_stats (s : Store) : ResolutionStatsR :=
  let resolved := s.complaints.filterMap (fun c =>
    c.resolved_at.map (fun r => (c, resolutionHours c r)))
  { overall :=
      { resolved_count := resolved.length
        avg_hours := (sqlAvg (resolved.map (fun p => p.2))).map round1
        min_hours := (sqlMin (resolved.map (fun p => p.2))).map round1
        max_hours := (sqlMax (resolved.map (fun p => p.2))).map round1 }
    by_priority :=
      sortDescBy (fun r => r.2.2)
        ((groupKeys (fun p => p.1.priority) resolved).map (fun k =>
          let g := resolved.filter (fun p => p.1.priority == k)
          (k, g.length, round1 ((sqlAvg (g.map (fun p => p.2))).getD 0))))
    details :=
      sortDescBy (fun r => r.resolution_hours)
        (resolved.map (fun p =>
          { category := p.1.category
            priority := p.1.priority
            resolution_hours := round1 p.2 })) }

/-- Per-gateway row of repository.get_payment_failure_rate. -/
structure GatewayRateR where
  gateway : String
  total_events : ℕ
  success_count : ℕ
  failure_count : ℕ
  failure_pct : ℚ
deriving Repr

/-- Overall block of repository.get_payment_failure_rate (SUM aggregates, and
the division by COUNT(*), are NULL over an empty payment_logs table). -/
structure FailureOverallR where
  total_events : ℕ
  success_count : Option ℕ
  failure_count : Option ℕ
  failure_pct : Option ℚ
deriving Repr

/-- Result of repository.get_payment_failure_rate. -/
structure FailureRateR where
  overall : FailureOverallR
  by_gateway : List GatewayRateR
deriving Repr

/-- repository.get_payment_failure_rate: success and failure counts with the
failure percentage per gateway (ORDER BY failure_pct DESC) and overall. -/
def get_payment_failure_rate (s : Store) : FailureRateR :=
  { overall :=
      { total_events := s.payment_logs.length
        success_count := if s.payment_logs.isEmpty then none
          else some (s.payment_logs.countP (fun e => e.status == "success"))
        failure_count := if s.payment_logs.isEmpty then none
          else some (s.payment_logs.countP (fun e => e.status == "failed"))
        failure_pct := if s.payment_logs.isEmpty then none
          else some (round2
            (s.payment_logs.countP (fun e => e.status == "failed") * 100 /
              s.payment_logs.length)) }
    by_gateway :=
      sortDescBy (fun r => r.failure_pct)
        ((groupKeys (fun e => e.gateway) s.payment_logs).map (fun g =>
          let evs := s.payment_logs.filter (fun e => e.gateway == g)
          { gateway := g
            total_events := evs.length
            success_count := evs.countP (fun e => e.status == "success")
            failure_count := evs.countP (fun e => e.status == "failed")
            failure_pct := round2
              (evs.countP (fun e => e.status == "failed") * 100 / evs.length) })) }

/-- Result row of repository.get_payment_summary_by_method. -/
structure MethodSummaryR where
  payment_method : Option String
  order_count : ℕ
  total_revenue : ℚ
  avg_order_value : ℚ
deriving Repr

/-- repository.get_payment_summary_by_method: orders GROUP BY payment_method
with COUNT, ROUND(SUM,2), ROUND(AVG,2), ORDER BY total_revenue DESC. -/
def get_payment_summary_by_method (s : Store) : List MethodSummaryR :=
  sortDescBy (fun r => r.total_revenue)
    ((groupKeys (fun o => o.payment_method) s.orders).map (fun k =>
      let g := s.orders.filter (fun o => o.payment_method == k)
      let amounts := g.map (fun o => o.total_amount)
      { payment_method := k
        order_count := g.length
        total_revenue := round2 amounts.sum
        avg_order_value := round2 (amounts.sum / amounts.length) }))

/-- Result row of repository.get_carrier_performance. -/
structure CarrierPerfR where
  carrier : String
  total_events : ℕ
  orders_handled : ℕ
  avg_delivery_hours : Option ℚ
deriving Repr

/-- The span of one order in hours from its first logistics event to its last
delivered event, NULL unless both anchors exist. -/
def orderSpanHours (s : Store) (oid : ℤ) : Option ℚ :=
  match orderDeliveredAt s oid, orderFirstEvent s oid with
  | some d, some f => some ((d - f) * 24)
  | _, _ => none

/-- The CASE expression averaged by get_carrier_performance: for one joined
event row, the span of its order. -/
def eventSpanHours (s : Store) (e : LogisticsLog) : Option ℚ :=
  orderSpanHours s e.order_id

/-- repository.get_carrier_performance: logistics_logs LEFT JOIN the per-order
(first_event, delivered_at) subquery, GROUP BY carrier with COUNT(*),
COUNT(DISTINCT order_id) and ROUND(AVG(CASE ...), 1) — the AVG runs over the
individual event rows of the carrier — ORDER BY orders_handled DESC. -/
def get_carrier_performance (s : Store) : List CarrierPerfR :=
  sortDescBy (fun r => r.orders_handled)
    ((groupKeys (fun e => e.carrier) s.logistics_logs).map (fun c =>
      let evs := s.logistics_logs.filter (fun e => e.carrier == c)
      { carrier := c
        total_events := evs.length
        orders_handled := (groupKeys (fun e => e.order_id) evs).length
        avg_delivery_hours := (sqlAvg (evs.filterMap (eventSpanHours s))).map round1 }))

/-- Result row of repository.get_order_delivery_time. -/
structure DeliveryTimeR where
  order_id : ℤ
  item : String
  tracking_number : Option String
  ordered_at : ℚ
  shipped_at : Option ℚ
  delivered_at : Option ℚ
  processing_hours : Option ℚ
  shipping_hours : Option ℚ
  total_hours : Option ℚ
deriving Repr

/-- repository.get_order_delivery_time: the order LEFT JOINed with its
earliest dispatched event (shipped_at) and latest delivered event
(delivered_at); each ROUND((julianday(a) - julianday(b)) * 24, 1) duration is
NULL whenever either of its anchors is NULL. -/
def get_order_delivery_time (s : Store) (order_id : ℤ) : Option DeliveryTimeR :=
  (s.orders.find? (fun o => o.id == order_id)).map (fun o =>
    let sh := orderDispatchedAt s o.id
    let dl := orderDeliveredAt s o.id
    { order_id := o.id
      item := o.item
      tracking_number := o.tracking_number
      ordered_at := o.ordered_at
      shipped_at := sh
      delivered_at := dl
      processing_hours := sh.map (fun t => round1 ((t - o.ordered_at) * 24))
      shipping_hours :=
        match dl, sh with
        | some d, some t => some (round1 ((d - t) * 24))
        | _, _ => none
      total_hours := dl.map (fun d => round1 ((d - o.ordered_at) * 24)) })

/-! ## MCP tool dispatch (app/mcp_server.py)

handle_call_tool looks the tool name up in the _TOOL_DISPATCH dict and runs
the stored lambda on the argument dict.  An unknown name raises
ValueError("Unknown tool: ..."); a lambda that subscripts a missing required
key raises KeyError before the repository (and hence the store) is ever
consulted.  JSON argument values are modelled by a small value type; a
timestamp-valued string argument is represented by its julian-day value. -/

/-- A JSON argument value as received by handle_call_tool. -/
inductive Arg where
  | int (n : ℤ)
  | str (s : String)
  | time (t : ℚ)
deriving DecidableEq, Repr

/-- Using an argument as an SQL integer parameter.  In SQLite a text-typed
parameter never compares equal to an INTEGER id column; this is modelled by
the value -1, which lies outside the AUTOINCREMENT id range. -/
def Arg.asInt : Arg → ℤ
  | .int n => n
  | _ => -1

/-- Using an argument as an SQL text parameter. -/
def Arg.asStr : Arg → String
  | .str s => s
  | .int n => toString n
  | .time _ => ""

/-- Using an argument as a timestamp bound (an ISO-8601 string in the source,
represented by its julian-day value). -/
def Arg.asTime : Arg → ℚ
  | .time t => t
  | _ => 0

/-- The argument dict of one tool call. -/
abbrev Args : Type := List (String × Arg)

/-- A Python exception escaping the dispatch lambda: the KeyError raised by
subscripting a missing dict key, or the ValueError raised by
handle_call_tool for an unknown tool name. -/
inductive PyErr where
  | keyError (key : String)
  | valueError (msg : String)
deriving DecidableEq, Repr

/-- Python dict subscription a[k]: the value, or a raised KeyError. -/
def subscript (a : Args) (k : String) : Except PyErr Arg :=
  match a.lookup k with
  | some v => .ok v
  | none => .error (.keyError k)

/-- Python dict a.get(k): the value or None. -/
def dictGet (a : Args) (k : String) : Option Arg := a.lookup k

/-- The union of the result types of the thirty repository calls reachable
from _TOOL_DISPATCH (serialised by json.dumps in the source; the
serialisation is value-preserving and elided). -/
inductive Payload where
  | users (l : List UserR)
  | userOpt (u : Option UserR)
  | userSummary (v : Option UserSummaryR)
  | orders (l : List OrderR)
  | orderOpt (o : Option OrderR)
  | orderStats (v : OrderStatisticsR)
  | complaints (l : List ComplaintR)
  | complaintOpt (c : Option ComplaintR)
  | complaintStats (v : ComplaintStatisticsR)
  | userIssues (l : List UserIssueR)
  | paymentLogs (l : List PaymentLog)
  | logisticsLogs (l : List LogisticsLog)
  | complaintContext (c : Option ComplaintContextR)
  | cityRevenues (l : List CityRevenueR)
  | topCustomers (l : List TopCustomerR)
  | lifetimeValue (v : Option LifetimeValueR)
  | dashboard (d : DashboardR)
  | timeline (t : Option TimelineR)
  | shipments (l : List ShipmentR)
  | deliveryTime (d : Option DeliveryTimeR)
  | resolutionStats (v : ResolutionStatsR)
  | failureRate (v : FailureRateR)
  | methodSummary (l : List MethodSummaryR)
  | carrierPerf (l : List CarrierPerfR)

/-- The _TOOL_DISPATCH dict of app/mcp_server.py: tool name to lambda, in
source order.  Each lambda evaluates its required-key subscripts (left to
right, as Python evaluates call arguments) and then applies the repository
function to the store snapshot. -/
def TOOL_DISPATCH : List (String × (Args → Store → Except PyErr Payload)) :=
  [ ("list_users", fun _ s => .ok (.users (list_users s))),
    ("get_user_by_id", fun a s => do
      let v ← subscript a "user_id"
      .ok (.userOpt (get_user_by_id s v.asInt))),
    ("search_users", fun a s => do
      let v ← subscript a "keyword"
      .ok (.users (search_users s v.asStr))),
    ("get_user_summary", fun a s => do
      let v ← subscript a "user_id"
      .ok (.userSummary (get_user_summary s v.asInt))),
    ("list_orders", fun a s =>
      .ok (.orders (list_orders s ((dictGet a "user_id").map Arg.asInt)
        ((dictGet a "status").map Arg.asStr)
        ((dictGet a "payment_method").map Arg.asStr)))),
    ("get_order_by_id", fun a s => do
      let v ← subscript a "order_id"
      .ok (.orderOpt (get_order_by_id s v.asInt))),
    ("get_orders_by_date_range", fun a s => do
      let v1 ← subscript a "start"
      let v2 ← subscript a "end"
      .ok (.orders (get_orders_by_date_range s v1.asTime v2.asTime))),
    ("get_order_by_tracking", fun a s => do
      let v ← subscript a "tracking_number"
      .ok (.orderOpt (get_order_by_tracking s v.asStr))),
    ("get_order_statistics", fun _ s => .ok (.orderStats (get_order_statistics s))),
    ("list_complaints", fun a s =>
      .ok (.complaints (list_complaints s ((dictGet a "user_id").map Arg.asInt)
        ((dictGet a "status").map Arg.asStr)
        ((dictGet a "category").map Arg.asStr)
        ((dictGet a "priority").map Arg.asStr)
        ((dictGet a "assigned_to").map Arg.asStr)))),
    ("get_complaint_by_id", fun a s => do
      let v ← subscript a "complaint_id"
      .ok (.complaintOpt (get_complaint_by_id s v.asInt))),
    ("search_complaints", fun a s => do
      let v ← subscript a "keyword"
      .ok (.complaints (search_complaints s v.asStr))),
    ("get_high_priority_open_complaints", fun _ s =>
      .ok (.complaints (get_high_priority_open_complaints s))),
    ("get_complaint_statistics", fun _ s =>
      .ok (.complaintStats (get_complaint_statistics s))),
    ("get_complaints_for_order", fun a s => do
      let v ← subscript a "order_id"
      .ok (.complaints (get_complaints_for_order s v.asInt))),
    ("correlate_user_issues", fun a s => do
      let v ← subscript a "user_id"
      .ok (.userIssues (correlate_user_issues s v.asInt))),
    ("get_payment_logs", fun a s =>
      .ok (.paymentLogs (get_payment_logs s ((dictGet a "order_id").map Arg.asInt)
        ((dictGet a "start").map Arg.asTime)
        ((dictGet a "end").map Arg.asTime)))),
    ("get_logistics_logs", fun a s =>
      .ok (.logisticsLogs (get_logistics_logs s
        ((dictGet a "order_id").map Arg.asInt)
        ((dictGet a "tracking_number").map Arg.asStr)
        ((dictGet a "start").map Arg.asTime)
        ((dictGet a "end").map Arg.asTime)))),
    ("get_complaint_context_logs", fun a s => do
      let v ← subscript a "complaint_id"
      .ok (.complaintContext (get_complaint_context_logs s v.asInt
        (((dictGet a "window_hours").map Arg.asInt).getD 48)))),
    ("get_revenue_by_city", fun _ s => .ok (.cityRevenues (get_revenue_by_city s))),
    ("get_top_customers", fun a s =>
      .ok (.topCustomers (get_top_customers s
        (((dictGet a "limit").map Arg.asInt).getD 10)))),
    ("get_user_lifetime_value", fun a s => do
      let v ← subscript a "user_id"
      .ok (.lifetimeValue (get_user_lifetime_value s v.asInt))),
    ("get_dashboard_summary", fun _ s => .ok (.dashboard (get_dashboard_summary s))),
    ("get_order_fulfillment_timeline", fun a s => do
      let v ← subscript a "order_id"
      .ok (.timeline (get_order_fulfillment_timeline s v.asInt))),
    ("get_active_shipments", fun _ s => .ok (.shipments (get_active_shipments s))),
    ("get_order_delivery_time", fun a s => do
      let v ← subscript a "order_id"
      .ok (.deliveryTime (get_order_delivery_time s v.asInt))),
    ("get_complaint_resolution_time_stats", fun _ s =>
      .ok (.resolutionStats (get_complaint_resolution_time_stats s))),
    ("get_payment_failure_rate", fun _ s => .ok (.failureRate (get_payment_failure_rate s))),
    ("get_payment_summary_by_method", fun _ s =>
      .ok (.methodSummary (get_payment_summary_by_method s))),
    ("get_carrier_performance", fun _ s => .ok (.carrierPerf (get_carrier_performance s))) ]

/-- mcp_server.handle_call_tool: _TOOL_DISPATCH.get(name), raising
ValueError("Unknown tool: ...") when the name is unregistered, otherwise
running the stored lambda on the arguments and the store. -/
def handle_call_tool (s : Store) (name : String) (arguments : Args) :
    Except PyErr Payload :=
  match TOOL_DISPATCH.lookup name with
  | none => .error (.valueError ("Unknown tool: " ++ name))
  | some fn => fn arguments s

/-- The registered tool catalog: the names of the TOOLS list of
app/mcp_server.py (equal to the keys of _TOOL_DISPATCH). -/
def TOOL_NAMES : List String := TOOL_DISPATCH.map Prod.fst

/-- The required-argument declarations of the TOOLS input schemas of
app/mcp_server.py: every tool whose schema has a non-empty required list,
with that list (schema order). -/
def TOOL_REQUIRED : List (String × List String) :=
  [ ("get_user_by_id", ["user_id"]),
    ("search_users", ["keyword"]),
    ("get_user_summary", ["user_id"]),
    ("get_order_by_id", ["order_id"]),
    ("get_orders_by_date_range", ["start", "end"]),
    ("get_order_by_tracking", ["tracking_number"]),
    ("get_complaint_by_id", ["complaint_id"]),
    ("search_complaints", ["keyword"]),
    ("get_complaints_for_order", ["order_id"]),
    ("correlate_user_issues", ["user_id"]),
    ("get_complaint_context_logs", ["complaint_id"]),
    ("get_user_lifetime_value", ["user_id"]),
    ("get_order_fulfillment_timeline", ["order_id"]),
    ("get_order_delivery_time", ["order_id"]) ]

/-! ## Agent orchestration loop (client.py run_agent)

The Gemini response parts, the conversation contents, the result truncation
and the bounded tool-calling loop of client.py.  The reasoning service is
an oracle from the current conversation to either a list of response parts or
a raised exception; the MCP tool session is a function from a tool name and
arguments to either the joined result text or a raised exception. -/

/-- One part of a genai Content: text, a function call requested by the
model, or a function response sent back by the client. -/
inductive GPart where
  | text (s : String)
  | functionCall (name : String) (args : Args)
  | functionResponse (name : String) (result : String)
deriving DecidableEq

/-- One conversation turn (genai Content): a role and its parts. -/
structure Content where
  role : String
  parts : List GPart
deriving DecidableEq

/-- part.function_call is not None. -/
def GPart.isFunctionCall : GPart → Bool
  | .functionCall _ _ => true
  | _ => false

/-- has_function_calls = any(p.function_call is not None for p in parts). -/
def hasFunctionCalls (parts : List GPart) : Bool :=
  parts.any GPart.isFunctionCall

/-- final_text = "".join(p.text for p in parts if p.text): the text parts of
a terminal response joined in order (Python truthiness skips empty text). -/
def finalText (parts : List GPart) : String :=
  String.join (parts.filterMap (fun p =>
    match p with
    | .text s => if s.isEmpty then none else some s
    | _ => none))

/-- The character budget of the truncation branch of client.py (the literal
30000 in if len(result_text) > 30000). -/
def truncation_budget : ℕ := 30000

/-- The fixed truncation marker appended by client.py. -/
def trunc_marker : String := "\n... [truncated]"

/-- The truncation step of client.py: a result longer than the budget is cut
to its first 30000 characters (Python slicing counts code points, as does
List.take on the character data) with the marker appended; anything else
passes unchanged. -/
def truncateResult (s : String) : String :=
  if s.length > truncation_budget then
    String.mk (s.data.take truncation_budget) ++ trunc_marker
  else s

/-- json.dumps of the error payload dict built in the except branch,
\x7b"error": str(e)\x7d (JSON string escaping of the message elided). -/
def jsonError (msg : String) : String :=
  "\x7b\"error\": \"" ++ msg ++ "\"\x7d"

/-- The reasoning-service oracle: client.models.generate_content on the
current conversation, either a parts list or a raised exception message. -/
def ModelOracle : Type := List Content → Except String (List GPart)

/-- The MCP session: session.call_tool with the text of the returned content
items joined, or the message of a raised exception. -/
def ToolSession : Type := String → Args → Except String String

/-- The body of the for-loop over response parts in client.py: a function
call part becomes a function response part whose result text is the truncated
tool result on success and the structured error payload when call_tool
raised; other parts contribute nothing. -/
def processPart (tools : ToolSession) : GPart → Option GPart
  | .functionCall name args =>
    some (.functionResponse name
      (match tools name args with
       | .ok t => truncateResult t
       | .error e => jsonError e))
  | _ => none

/-- The function_response_parts list accumulated for one model response: one
entry per requested invocation, in request order. -/
def batchResults (tools : ToolSession) (parts : List GPart) : List GPart :=
  parts.filterMap (processPart tools)

/-- The outcome of run_agent: the final report string returned when a
response had no function calls, the fixed iteration-limit error return, or an
exception from generate_content propagated to the caller. -/
inductive AgentOutcome where
  | report (text : String)
  | iterationLimit
  | serviceFailure (e : String)
deriving DecidableEq

/-- The agent loop of client.py, by the remaining iteration budget: ask the
oracle (propagating its exception), finish with the final text when no part
is a function call, otherwise execute the batch, append the model turn and
the aggregated tool-result turn, and continue; the iteration-limit return
fires when the budget is exhausted. -/
def runAgentLoop (tools : ToolSession) (model : ModelOracle) :
    ℕ → List Content → AgentOutcome
  | 0, _ => .iterationLimit
  | fuel + 1, messages =>
    match model messages with
    | .error e => .serviceFailure e
    | .ok parts =>
      if hasFunctionCalls parts then
        runAgentLoop tools model fuel
          (messages ++ [{ role := "model", parts := parts },
                        { role := "user", parts := batchResults tools parts }])
      else .report (finalText parts)

/-- The number of generate_content calls the loop performs from a given
state. -/
def serviceCalls (tools : ToolSession) (model : ModelOracle) :
    ℕ → List Content → ℕ
  | 0, _ => 0
  | fuel + 1, messages =>
    match model messages with
    | .error _ => 1
    | .ok parts =>
      if hasFunctionCalls parts then
        1 + serviceCalls tools model fuel
          (messages ++ [{ role := "model", parts := parts },
                        { role := "user", parts := batchResults tools parts }])
      else 1

/-- max_iterations = 20, the safety cap of client.py. -/
def max_iterations : ℕ := 20

/-- The seeded conversation: one user turn wrapping the complaint text. -/
def initialMessages (user_complaint : String) : List Content :=
  [{ role := "user",
     parts := [.text
       ("A customer has filed the following complaint. Investigate it thoroughly " ++
        "using the available MCP tools and produce a comprehensive correlation report.\n\n" ++
        "**Customer Complaint:**\n" ++ user_complaint)] }]

/-- client.run_agent: the loop from the seeded conversation under the
iteration cap. -/
def run_agent (tools : ToolSession) (model : ModelOracle)
    (user_complaint : String) : AgentOutcome :=
  runAgentLoop tools model max_iterations (initialMessages user_complaint)

/-- The number of generate_content calls one run_agent invocation makes. -/
def agentServiceCalls (tools : ToolSession) (model : ModelOracle)
    (user_complaint : String) : ℕ :=
  serviceCalls tools model max_iterations (initialMessages user_complaint)

/-! ## Connection management (repository._with_conn)

The decorator opens a fresh connection, runs the wrapped query body, and
closes the connection in a finally block, so the close runs both when the
body returns and when it raises.  The pool is abstracted to the number of
currently open connections; a body is an action on that state which either
returns a value or raises. -/

/-- The outcome of running a Python callable: a returned value or a raised
exception. -/
inductive PyResult (α : Type) where
  | ok (a : α)
  | raised (msg : String)
deriving DecidableEq, Repr

/-- A connection-using computation: from the number of currently open
connections to an outcome and the new number of open connections. -/
def ConnM (α : Type) : Type := ℕ → PyResult α × ℕ

/-- A body that balances its own connection use: it leaves the number of
open connections as it found it. -/
def ConnM.Balanced {α : Type} (body : ConnM α) : Prop :=
  ∀ n, (body n).2 = n

/-- repository._with_conn: conn = get_connection() opens one connection, the
body runs with it, and the finally clause closes it on both the return and
the raise path. -/
def with_conn {α : Type} (body : ConnM α) : ConnM α := fun n =>
  let r := body (n + 1)
  (r.1, r.2 - 1)

/-! ## Fixtures: concrete snapshots and oracles used by the closed theorems -/

/-- The avg_delivery_hours of one carrier as the claim about
get_carrier_performance states it, for comparison with the implementation:
per order of the carrier the span from the first event to the last delivered
event, averaged across the orders that have both anchors, each qualifying
order weighted once. -/
def carrierAvgPerOrderSpec (s : Store) (c : String) : Option ℚ :=
  let oids := groupKeys (fun e => e.order_id)
    (s.logistics_logs.filter (fun e => e.carrier == c))
  (sqlAvg (oids.filterMap (orderSpanHours s))).map round1

/-- Fixture user 5 (owns order 15). -/
def exUser5 : UserR :=
  { id := 5, name := "Rajesh Kumar", email := "rajesh@example.in",
    phone := some "9820012345", address_line := some "14 MG Road",
    city := some "Mumbai", state := some "Maharashtra", zip_code := some "400001",
    country := "India", created_at := 50 }

/-- Fixture user 6 (has no orders). -/
def exUser6 : UserR :=
  { id := 6, name := "Meera Nair", email := "meera@example.in",
    phone := none, address_line := none, city := some "Kochi", state := some "Kerala",
    zip_code := none, country := "India", created_at := 60 }

/-- Fixture order 15 of user 5, currently shipped. -/
def exOrder15 : OrderR :=
  { id := 15, user_id := 5, item := "Wireless Headphones", quantity := 1,
    unit_price := 2999, total_amount := 2999, status := "shipped",
    payment_method := some "upi", shipping_address := some "14 MG Road, Mumbai",
    tracking_number := some "TRK100015", ordered_at := 100 }

/-- Fixture complaint 7 of user 5 linked to order 15, created at time 102. -/
def exComplaint7 : ComplaintR :=
  { id := 7, user_id := 5, order_id := some 15, category := "delivery",
    priority := "high", status := "open", subject := "Order stuck in transit",
    details := "Shipped days ago and nothing arrived", resolution := none,
    assigned_to := none, created_at := 102, resolved_at := none }

/-- Fixture complaint 9 of user 6 with no linked order. -/
def exComplaint9 : ComplaintR :=
  { id := 9, user_id := 6, order_id := none, category := "account",
    priority := "low", status := "open", subject := "Profile update fails",
    details := "Cannot change my phone number", resolution := none,
    assigned_to := none, created_at := 103, resolved_at := none }

/-- Fixture payment events of order 15; the one at time 90 lies far outside
every reasonable window around the complaint creation time 102. -/
def exPayment1 : PaymentLog :=
  { id := 1, order_id := 15, transaction_id := "TXN-A", event_type := "authorized",
    amount := 2999, currency := "INR", gateway := "Razorpay", status := "success",
    error_message := none, logged_at := 90 }

/-- Second fixture payment event of order 15. -/
def exPayment2 : PaymentLog :=
  { id := 2, order_id := 15, transaction_id := "TXN-B", event_type := "captured",
    amount := 2999, currency := "INR", gateway := "Razorpay", status := "success",
    error_message := none, logged_at := 100 }

/-- Fixture logistics events of order 15: dispatched at 101, in transit at
102, delivered at 103 (stored out of order to exercise the sort). -/
def exLog1 : LogisticsLog :=
  { id := 1, order_id := 15, tracking_number := some "TRK100015",
    carrier := "BlueDart", event_type := "in_transit", location := some "Pune",
    notes := none, logged_at := 102 }

/-- The dispatched fixture event of order 15. -/
def exLog2 : LogisticsLog :=
  { id := 2, order_id := 15, tracking_number := some "TRK100015",
    carrier := "BlueDart", event_type := "dispatched", location := some "Mumbai",
    notes := none, logged_at := 101 }

/-- The delivered fixture event of order 15. -/
def exLog3 : LogisticsLog :=
  { id := 3, order_id := 15, tracking_number := some "TRK100015",
    carrier := "BlueDart", event_type := "delivered", location := some "Delhi",
    notes := none, logged_at := 103 }

/-- The main fixture snapshot. -/
def exStore : Store :=
  { users := [exUser5, exUser6]
    orders := [exOrder15]
    complaints := [exComplaint7, exComplaint9]
    payment_logs := [exPayment2, exPayment1]
    logistics_logs := [exLog1, exLog2, exLog3] }

/-- Counterexample snapshot for the carrier-performance claim: one carrier,
order 1 with two events (span 24 hours), order 2 with one delivered event
(span 0 hours).  The per-order average is 12.0 but the AVG in the SQL runs
over the three event rows, giving (24 + 24 + 0) / 3 = 16.0. -/
def cexOrder1 : OrderR :=
  { id := 1, user_id := 5, item := "Keyboard", quantity := 1, unit_price := 1500,
    total_amount := 1500, status := "delivered", payment_method := some "upi",
    shipping_address := none, tracking_number := some "TRK1", ordered_at := 0 }

/-- Second counterexample order. -/
def cexOrder2 : OrderR :=
  { id := 2, user_id := 5, item := "Mouse", quantity := 1, unit_price := 700,
    total_amount := 700, status := "delivered", payment_method := some "upi",
    shipping_address := none, tracking_number := some "TRK2", ordered_at := 4 }

/-- Counterexample logistics events. -/
def cexLogA : LogisticsLog :=
  { id := 1, order_id := 1, tracking_number := some "TRK1", carrier := "BlueDart",
    event_type := "dispatched", location := none, notes := none, logged_at := 0 }

/-- Counterexample delivered event of order 1, one day after dispatch. -/
def cexLogB : LogisticsLog :=
  { id := 2, order_id := 1, tracking_number := some "TRK1", carrier := "BlueDart",
    event_type := "delivered", location := none, notes := none, logged_at := 1 }

/-- Counterexample single delivered event of order 2. -/
def cexLogC : LogisticsLog :=
  { id := 3, order_id := 2, tracking_number := some "TRK2", carrier := "BlueDart",
    event_type := "delivered", location := none, notes := none, logged_at := 5 }

/-- The counterexample snapshot. -/
def cexStore : Store :=
  { users := [exUser5]
    orders := [cexOrder1, cexOrder2]
    complaints := []
    payment_logs := []
    logistics_logs := [cexLogA, cexLogB, cexLogC] }

/-- The single carrier-performance row the counterexample snapshot yields. -/
def cexRow : CarrierPerfR :=
  { carrier := "BlueDart", total_events := 3, orders_handled := 2,
    avg_delivery_hours := some 16 }

/-- A tool session whose every call succeeds with a short result. -/
def toolsOkW : ToolSession := fun _ _ => .ok "result data"

/-- A tool session whose every call raises. -/
def toolsFailW : ToolSession := fun _ _ => .error "database is locked"

/-- An oracle that always requests one more tool invocation: it drives the
loop into the iteration cap. -/
def modelAlwaysCallW : ModelOracle := fun _ =>
  .ok [GPart.functionCall "list_users" []]

/-- An oracle that requests one lookup (used with the failing session). -/
def modelOneCallW : ModelOracle := fun _ =>
  .ok [GPart.functionCall "get_user_by_id" [("user_id", Arg.int 5)]]

/-- An oracle that immediately produces a final text. -/
def modelReportW : ModelOracle := fun _ =>
  .ok [GPart.text "Final correlation report"]

/-- A balanced query body that returns normally. -/
def connBodyOkW : ConnM ℕ := fun n => (.ok 42, n)

/-- A balanced query body that raises. -/
def connBodyRaiseW : ConnM ℕ := fun n => (.raised "no such table", n)

/-- A 30001-character tool result, one character over the truncation budget. -/
def bigResultW : String := String.mk (List.replicate 30001 'a')

/-! ## Helper lemmas -/

/-- An ORDER BY ASC result is a permutation of its input. -/
theorem sortAscBy_perm {α β : Type} [LinearOrder β] (key : α → β) (l : List α) :
    (sortAscBy key l).Perm l :=
  List.perm_insertionSort _ _

/-- Membership is preserved by the ascending sort. -/
theorem sortAscBy_mem {α β : Type} [LinearOrder β] (key : α → β) (l : List α) (a : α) :
    a ∈ sortAscBy key l ↔ a ∈ l :=
  List.mem_insertionSort _

/-- An ORDER BY ASC result is sorted by its key. -/
theorem sortAscBy_sorted {α β : Type} [LinearOrder β] (key : α → β) (l : List α) :
    (sortAscBy key l).Sorted (fun a b => key a ≤ key b) := by
  haveI : IsTotal α (fun a b => key a ≤ key b) := ⟨fun a b => le_total _ _⟩
  haveI : IsTrans α (fun a b => key a ≤ key b) := ⟨fun _ _ _ => le_trans⟩
  exact List.sorted_insertionSort _ _

/-- A DESC sort result is a permutation of its input. -/
theorem sortDescBy_perm {α β : Type} [LinearOrder β] (key : α → β) (l : List α) :
    (sortDescBy key l).Perm l :=
  List.perm_insertionSort _ _

/-- Membership is preserved by the descending sort. -/
theorem sortDescBy_mem {α β : Type} [LinearOrder β] (key : α → β) (l : List α) (a : α) :
    a ∈ sortDescBy key l ↔ a ∈ l :=
  List.mem_insertionSort _

/-- SQL MIN of an empty value list only. -/
theorem sqlMin_eq_none_iff (l : List ℚ) : sqlMin l = none ↔ l = [] := by
  cases l <;> simp [sqlMin, List.min?]

/-- SQL MAX of an empty value list only. -/
theorem sqlMax_eq_none_iff (l : List ℚ) : sqlMax l = none ↔ l = [] := by
  cases l <;> simp [sqlMax, List.max?]

/-- SQL MIN returns a least element of the list. -/
theorem sqlMin_eq_some (l : List ℚ) (m : ℚ) (h : sqlMin l = some m) :
    m ∈ l ∧ ∀ x ∈ l, m ≤ x := by
  haveI : Std.Antisymm ((· ≤ ·) : ℚ → ℚ → Prop) := ⟨fun h1 h2 => le_antisymm h1 h2⟩
  exact (List.min?_eq_some_iff (fun a => le_refl a) (fun a b => min_choice a b)
    (fun a b c => le_min_iff)).mp h

/-- SQL MAX returns a greatest element of the list. -/
theorem sqlMax_eq_some (l : List ℚ) (m : ℚ) (h : sqlMax l = some m) :
    m ∈ l ∧ ∀ x ∈ l, x ≤ m := by
  haveI : Std.Antisymm ((· ≤ ·) : ℚ → ℚ → Prop) := ⟨fun h1 h2 => le_antisymm h1 h2⟩
  exact (List.max?_eq_some_iff (fun a => le_refl a) (fun a b => max_choice a b)
    (fun a b c => max_le_iff)).mp h

/-- Dict lookup misses every key outside the key list. -/
theorem lookup_eq_none_of_not_mem_keys {β : Type} (l : List (String × β)) (k : String)
    (h : k ∉ l.map Prod.fst) : l.lookup k = none := by
  rw [List.lookup_eq_none_iff]
  intro p hp
  have hne : k ≠ p.1 := fun hk => h (hk ▸ List.mem_map_of_mem Prod.fst hp)
  simpa [bne_iff_ne] using hne

/-- One function response per requested invocation in a batch. -/
theorem batchResults_length (tools : ToolSession) (parts : List GPart) :
    (batchResults tools parts).length = parts.countP GPart.isFunctionCall := by
  induction parts with
  | nil => rfl
  | cons p t ih =>
    cases p <;>
      simp [batchResults, processPart, GPart.isFunctionCall, List.countP_cons] at ih ⊢ <;>
      omega

/-- The loop makes at most as many reasoning-service calls as it has
remaining iterations. -/
theorem serviceCalls_le_fuel (tools : ToolSession) (model : ModelOracle) :
    ∀ (fuel : ℕ) (messages : List Content),
      serviceCalls tools model fuel messages ≤ fuel := by
  intro fuel
  induction fuel with
  | zero => intro messages; simp [serviceCalls]
  | succ n ih =>
    intro messages
    cases hm : model messages with
    | error e => simp [serviceCalls, hm]
    | ok parts =>
      by_cases hc : hasFunctionCalls parts = true
      · have hstep := ih (messages ++ [{ role := "model", parts := parts },
          { role := "user", parts := batchResults tools parts }])
        simp only [serviceCalls, hm, hc, if_true]
        omega
      · simp [serviceCalls, hm, hc]

/-- When the loop ends at the iteration cap it has used its whole budget of
reasoning-service calls. -/
theorem serviceCalls_of_iterationLimit (tools : ToolSession) (model : ModelOracle) :
    ∀ (fuel : ℕ) (messages : List Content),
      runAgentLoop tools model fuel messages = .iterationLimit →
      serviceCalls tools model fuel messages = fuel := by
  intro fuel
  induction fuel with
  | zero => intro messages _; rfl
  | succ n ih =>
    intro messages h
    cases hm : model messages with
    | error e => simp [runAgentLoop, hm] at h
    | ok parts =>
      by_cases hc : hasFunctionCalls parts = true
      · rw [runAgentLoop] at h
        simp only [hm, hc, if_true] at h
        simp only [serviceCalls, hm, hc, if_true]
        rw [ih _ h]
        omega
      · simp [runAgentLoop, hm, hc] at h

/-- The loop always ends in one of the three outcomes: a report produced from
a no-function-call response of the oracle, the iteration limit, or a
propagated oracle failure. -/
theorem runAgentLoop_trichotomy (tools : ToolSession) (model : ModelOracle) :
    ∀ (fuel : ℕ) (messages : List Content),
      (∃ parts ms, model ms = .ok parts ∧ hasFunctionCalls parts = false ∧
        runAgentLoop tools model fuel messages = .report (finalText parts)) ∨
      runAgentLoop tools model fuel messages = .iterationLimit ∨
      (∃ e ms, model ms = .error e ∧
        runAgentLoop tools model fuel messages = .serviceFailure e) := by
  intro fuel
  induction fuel with
  | zero => intro messages; exact Or.inr (Or.inl rfl)
  | succ n ih =>
    intro messages
    cases hm : model messages with
    | error e =>
      exact Or.inr (Or.inr ⟨e, messages, hm, by simp [runAgentLoop, hm]⟩)
    | ok parts =>
      by_cases hc : hasFunctionCalls parts = true
      · have hrw : runAgentLoop tools model (n + 1) messages =
            runAgentLoop tools model n
              (messages ++ [{ role := "model", parts := parts },
                { role := "user", parts := batchResults tools parts }]) := by
          rw [runAgentLoop]; simp only [hm, hc, if_true]
        rcases ih (messages ++ [{ role := "model", parts := parts },
            { role := "user", parts := batchResults tools parts }]) with
          ⟨p, ms, h1, h2, h3⟩ | h | ⟨e, ms, h1, h2⟩
        · exact Or.inl ⟨p, ms, h1, h2, by rw [hrw]; exact h3⟩
        · exact Or.inr (Or.inl (by rw [hrw]; exact h))
        · exact Or.inr (Or.inr ⟨e, ms, h1, by rw [hrw]; exact h2⟩)
      · refine Or.inl ⟨parts, messages, hm, by simpa using hc, ?_⟩
        rw [runAgentLoop]
        simp only [hm, hc, if_false]
        simp [hc]

/-- A string built from a char list has that list as its length. -/
theorem string_mk_length (l : List Char) : (String.mk l).length = l.length := rfl

/-! ## Claim theorems -/

/-- C4: the orchestration loop of client.run_agent performs at most
max_iterations (20) reasoning-service response cycles and always terminates
in exactly one of three outcomes: a final report produced from a response
without tool-invocation requests, the distinct iteration-limit failure (which
is not a report and is reached only after the full budget of response
cycles), or a reasoning-service failure propagated to the caller. -/
theorem claim_C4_agent_loop_bounded (tools : ToolSession) (model : ModelOracle)
    (user_complaint : String) :
    agentServiceCalls tools model user_complaint ≤ max_iterations ∧
    ((∃ parts ms, model ms = .ok parts ∧ hasFunctionCalls parts = false ∧
        run_agent tools model user_complaint = .report (finalText parts)) ∨
      (run_agent tools model user_complaint = .iterationLimit ∧
        agentServiceCalls tools model user_complaint = max_iterations) ∨
      (∃ e ms, model ms = .error e ∧
        run_agent tools model user_complaint = .serviceFailure e)) ∧
    (∀ t, AgentOutcome.iterationLimit ≠ AgentOutcome.report t) := by
  refine ⟨serviceCalls_le_fuel tools model max_iterations (initialMessages user_complaint),
    ?_, fun t h => by cases h⟩
  rcases runAgentLoop_trichotomy tools model max_iterations
      (initialMessages user_complaint) with h | h | h
  · exact Or.inl h
  · exact Or.inr (Or.inl ⟨h,
      serviceCalls_of_iterationLimit tools model max_iterations _ h⟩)
  · exact Or.inr (Or.inr h)

/-- C5: a tool result at most 30000 characters long is passed to the
reasoning service unchanged; a longer one becomes exactly its first 30000
characters followed by the fixed truncation marker (so its length is pinned
to 30016 and the untruncated content is never forwarded), and the function
response part carries exactly the truncated text. -/
theorem claim_C5_result_truncation (s : String) (tools : ToolSession)
    (name : String) (args : Args) (t : String) :
    (s.length ≤ truncation_budget → truncateResult s = s) ∧
    (truncation_budget < s.length →
      truncateResult s = String.mk (s.data.take truncation_budget) ++ trunc_marker ∧
      (truncateResult s).length = truncation_budget + trunc_marker.length) ∧
    (tools name args = .ok t →
      processPart tools (.functionCall name args) =
        some (.functionResponse name (truncateResult t))) := by
  refine ⟨fun h => ?_, fun h => ⟨?_, ?_⟩, fun h => by simp [processPart, h]⟩
  · rw [truncateResult, if_neg (by omega)]
  · rw [truncateResult, if_pos (by omega)]
  · rw [truncateResult, if_pos (by omega), String.length_append, string_mk_length,
      List.length_take]
    have hd : s.data.length = s.length := rfl
    omega

/-- Witness for C5 at a 30001-character result. -/
theorem claim_C5_result_truncation_witness :
    truncation_budget < bigResultW.length ∧
    truncateResult bigResultW =
      String.mk (List.replicate truncation_budget 'a') ++ trunc_marker := by
  have hdata : bigResultW.data = List.replicate 30001 'a' := rfl
  have hlen : bigResultW.length = 30001 := by
    rw [bigResultW, string_mk_length, List.length_replicate]
  have hgt : truncation_budget < bigResultW.length := by
    rw [hlen]; norm_num [truncation_budget]
  refine ⟨hgt, ?_⟩
  have h := (claim_C5_result_truncation bigResultW toolsOkW "x" [] "").2.1 hgt
  rw [h.1, hdata, List.take_replicate, min_eq_left (by norm_num [truncation_budget])]

/-- C6: a tool-invocation whose dispatch raises is captured as the structured
error payload \x7b"error": message\x7d and appended as that invocation
response (one response per requested invocation, in order), and the loop then
simply continues with the next reasoning-service call: its outcome is the
continuation outcome, so a tool failure never terminates the loop. -/
theorem claim_C6_tool_error_contained (tools : ToolSession) (model : ModelOracle)
    (fuel : ℕ) (messages : List Content) (parts : List GPart) :
    (∀ name args e, tools name args = .error e →
      processPart tools (.functionCall name args) =
        some (.functionResponse name (jsonError e))) ∧
    (batchResults tools parts).length = parts.countP GPart.isFunctionCall ∧
    (model messages = .ok parts → hasFunctionCalls parts = true →
      runAgentLoop tools model (fuel + 1) messages =
        runAgentLoop tools model fuel
          (messages ++ [{ role := "model", parts := parts },
            { role := "user", parts := batchResults tools parts }])) := by
  refine ⟨fun name args e h => by simp [processPart, h],
    batchResults_length tools parts, fun h1 h2 => ?_⟩
  rw [runAgentLoop]
  simp only [h1, h2, if_true]

/-- Witness for C6: a failing tool session, one requested invocation. -/
theorem claim_C6_tool_error_contained_witness :
    toolsFailW "get_user_by_id" [("user_id", Arg.int 5)] =
      .error "database is locked" ∧
    processPart toolsFailW
        (.functionCall "get_user_by_id" [("user_id", Arg.int 5)]) =
      some (.functionResponse "get_user_by_id" (jsonError "database is locked")) ∧
    runAgentLoop toolsFailW modelOneCallW 3 (initialMessages "hello") =
      runAgentLoop toolsFailW modelOneCallW 2
        (initialMessages "hello" ++
          [{ role := "model",
             parts := [.functionCall "get_user_by_id" [("user_id", Arg.int 5)]] },
           { role := "user",
             parts := batchResults toolsFailW
               [.functionCall "get_user_by_id" [("user_id", Arg.int 5)]] }]) := by
  refine ⟨rfl, ?_, ?_⟩
  · exact (claim_C6_tool_error_contained toolsFailW modelOneCallW 2
      (initialMessages "hello") []).1 "get_user_by_id" [("user_id", Arg.int 5)]
      "database is locked" rfl
  · exact (claim_C6_tool_error_contained toolsFailW modelOneCallW 2
      (initialMessages "hello")
      [.functionCall "get_user_by_id" [("user_id", Arg.int 5)]]).2.2 rfl rfl

/-- C9: the with_conn wrapper opens one connection for the wrapped query body
and closes it on every exit path: whether the body returns or raises, the
number of open connections afterwards equals the number before, and the body
outcome is passed through unchanged. -/
theorem claim_C9_connection_released {α : Type} (body : ConnM α)
    (h : body.Balanced) (n : ℕ) :
    (with_conn body n).2 = n ∧
    (with_conn body n).1 = (body (n + 1)).1 ∧
    (∀ a, (body (n + 1)).1 = .ok a → with_conn body n = (.ok a, n)) ∧
    (∀ m, (body (n + 1)).1 = .raised m → with_conn body n = (.raised m, n)) := by
  have h2 : (body (n + 1)).2 = n + 1 := h (n + 1)
  refine ⟨?_, rfl, fun a ha => ?_, fun m hm => ?_⟩
  · show (body (n + 1)).2 - 1 = n
    omega
  · show ((body (n + 1)).1, (body (n + 1)).2 - 1) = _
    rw [ha, h2, Nat.add_sub_cancel]
  · show ((body (n + 1)).1, (body (n + 1)).2 - 1) = _
    rw [hm, h2, Nat.add_sub_cancel]

/-- Witness for C9: a returning body and a raising body, both balanced. -/
theorem claim_C9_connection_released_witness :
    connBodyOkW.Balanced ∧ connBodyRaiseW.Balanced ∧
    with_conn connBodyOkW 0 = (.ok 42, 0) ∧
    with_conn connBodyRaiseW 5 = (.raised "no such table", 5) := by
  refine ⟨fun n => rfl, fun n => rfl, ?_, ?_⟩
  · exact (claim_C9_connection_released connBodyOkW (fun n => rfl) 0).2.2.1 42 rfl
  · exact (claim_C9_connection_released connBodyRaiseW (fun n => rfl) 5).2.2.2
      "no such table" rfl

/-- Bind on a raised Except propagates the error (the lambda stops at the
failed subscript and the repository is never entered). -/
theorem except_bind_error {ε α β : Type} (e : ε) (f : α → Except ε β) :
    ((Except.error e : Except ε α) >>= f) = .error e := rfl

/-- Bind on a successful Except continues with the value. -/
theorem except_bind_ok {ε α β : Type} (a : α) (f : α → Except ε β) :
    ((Except.ok a : Except ε α) >>= f) = f a := rfl

/-- C3: dispatching a tool name outside the registered catalog always fails
with the unknown-tool ValueError, whatever the store holds; and dispatching a
registered tool without one of its schema-required arguments always fails
with the KeyError raised by the argument subscript — the realisation of the
declared ValidationError category — and the resulting outcome is the same for
every store, so the store is never touched. -/
theorem claim_C3_dispatch_errors (name : String) (args : Args) :
    (name ∉ TOOL_NAMES →
      ∀ s, handle_call_tool s name args =
        .error (.valueError ("Unknown tool: " ++ name))) ∧
    (∀ reqs k, (name, reqs) ∈ TOOL_REQUIRED → k ∈ reqs → args.lookup k = none →
      ∃ kk, ∀ s, handle_call_tool s name args = .error (.keyError kk)) := by
  constructor
  · intro hn s
    rw [handle_call_tool, lookup_eq_none_of_not_mem_keys _ _ hn]
  · intro reqs k hmem hk hnone
    simp only [TOOL_REQUIRED, List.mem_cons, List.not_mem_nil, or_false,
      Prod.mk.injEq] at hmem
    rcases hmem with ⟨h1, h2⟩ | ⟨h1, h2⟩ | ⟨h1, h2⟩ | ⟨h1, h2⟩ | ⟨h1, h2⟩ |
      ⟨h1, h2⟩ | ⟨h1, h2⟩ | ⟨h1, h2⟩ | ⟨h1, h2⟩ | ⟨h1, h2⟩ | ⟨h1, h2⟩ |
      ⟨h1, h2⟩ | ⟨h1, h2⟩ | ⟨h1, h2⟩ <;> subst h1 <;> subst h2 <;>
      simp only [List.mem_cons, List.not_mem_nil, or_false] at hk
    · subst hk
      exact ⟨"user_id", fun s => by
        simp [handle_call_tool, TOOL_DISPATCH, subscript, hnone, List.lookup,
          except_bind_error, except_bind_ok]⟩
    · subst hk
      exact ⟨"keyword", fun s => by
        simp [handle_call_tool, TOOL_DISPATCH, subscript, hnone, List.lookup,
          except_bind_error, except_bind_ok]⟩
    · subst hk
      exact ⟨"user_id", fun s => by
        simp [handle_call_tool, TOOL_DISPATCH, subscript, hnone, List.lookup,
          except_bind_error, except_bind_ok]⟩
    · subst hk
      exact ⟨"order_id", fun s => by
        simp [handle_call_tool, TOOL_DISPATCH, subscript, hnone, List.lookup,
          except_bind_error, except_bind_ok]⟩
    · rcases hk with hk | hk <;> subst hk
      · exact ⟨"start", fun s => by
          simp [handle_call_tool, TOOL_DISPATCH, subscript, hnone, List.lookup,
            except_bind_error, except_bind_ok]⟩
      · cases h2 : args.lookup "start" with
        | none => exact ⟨"start", fun s => by
            simp [handle_call_tool, TOOL_DISPATCH, subscript, h2, List.lookup,
              except_bind_error, except_bind_ok]⟩
        | some v => exact ⟨"end", fun s => by
            simp [handle_call_tool, TOOL_DISPATCH, subscript, hnone, h2,
              List.lookup, except_bind_error, except_bind_ok]⟩
    · subst hk
      exact ⟨"tracking_number", fun s => by
        simp [handle_call_tool, TOOL_DISPATCH, subscript, hnone, List.lookup,
          except_bind_error, except_bind_ok]⟩
    · subst hk
      exact ⟨"complaint_id", fun s => by
        simp [handle_call_tool, TOOL_DISPATCH, subscript, hnone, List.lookup,
          except_bind_error, except_bind_ok]⟩
    · subst hk
      exact ⟨"keyword", fun s => by
        simp [handle_call_tool, TOOL_DISPATCH, subscript, hnone, List.lookup,
          except_bind_error, except_bind_ok]⟩
    · subst hk
      exact ⟨"order_id", fun s => by
        simp [handle_call_tool, TOOL_DISPATCH, subscript, hnone, List.lookup,
          except_bind_error, except_bind_ok]⟩
    · subst hk
      exact ⟨"user_id", fun s => by
        simp [handle_call_tool, TOOL_DISPATCH, subscript, hnone, List.lookup,
          except_bind_error, except_bind_ok]⟩
    · subst hk
      exact ⟨"complaint_id", fun s => by
        simp [handle_call_tool, TOOL_DISPATCH, subscript, hnone, List.lookup,
          except_bind_error, except_bind_ok]⟩
    · subst hk
      exact ⟨"user_id", fun s => by
        simp [handle_call_tool, TOOL_DISPATCH, subscript, hnone, List.lookup,
          except_bind_error, except_bind_ok]⟩
    · subst hk
      exact ⟨"order_id", fun s => by
        simp [handle_call_tool, TOOL_DISPATCH, subscript, hnone, List.lookup,
          except_bind_error, except_bind_ok]⟩
    · subst hk
      exact ⟨"order_id", fun s => by
        simp [handle_call_tool, TOOL_DISPATCH, subscript, hnone, List.lookup,
          except_bind_error, except_bind_ok]⟩

/-- Witness for C3: an unregistered name, and a registered tool called with
its required argument absent. -/
theorem claim_C3_dispatch_errors_witness :
    ("frobnicate" ∉ TOOL_NAMES ∧
      handle_call_tool exStore "frobnicate" [] =
        .error (.valueError "Unknown tool: frobnicate")) ∧
    (("get_user_by_id", ["user_id"]) ∈ TOOL_REQUIRED ∧
      (([] : Args).lookup "user_id" = none) ∧
      ∃ kk, ∀ s, handle_call_tool s "get_user_by_id" [] =
        .error (.keyError kk)) := by
  have hn : "frobnicate" ∉ TOOL_NAMES := by decide
  refine ⟨⟨hn, (claim_C3_dispatch_errors "frobnicate" []).1 hn exStore⟩,
    ⟨by simp [TOOL_REQUIRED], rfl, ?_⟩⟩
  exact (claim_C3_dispatch_errors "get_user_by_id" []).2 ["user_id"] "user_id"
    (by simp [TOOL_REQUIRED]) (by simp) rfl

/-- A predicate with a witness in the list makes find? succeed. -/
theorem find?_isSome_of_exists {α : Type} (p : α → Bool) (l : List α)
    (h : ∃ x ∈ l, p x) : (l.find? p).isSome := by
  rcases h with ⟨x, hx, hpx⟩
  cases hf : l.find? p with
  | some y => simp
  | none => exact absurd hpx (by simpa using List.find?_eq_none.mp hf x hx)

/-- C1: for a stored complaint with a non-null order_id, the context bundle
holds exactly the payment events and exactly the logistics events of that
order — the full history, as permutations of the filtered tables — each list
sorted ascending by logged_at; the window_hours argument is merely echoed in
the result and the two log lists are identical for every window value. -/
theorem claim_C1_context_full_history (s : Store) (hwf : s.WF) (cid w : ℤ)
    (c : ComplaintR) (oid : ℤ)
    (hc : s.complaints.find? (fun x => x.id == cid) = some c)
    (hoid : c.order_id = some oid) :
    ∃ r, get_complaint_context_logs s cid w = some r ∧
      r.payment_logs.Perm (s.payment_logs.filter (fun e => e.order_id == oid)) ∧
      r.logistics_logs.Perm (s.logistics_logs.filter (fun e => e.order_id == oid)) ∧
      (∀ e, e ∈ r.payment_logs ↔ e ∈ s.payment_logs ∧ e.order_id = oid) ∧
      (∀ e, e ∈ r.logistics_logs ↔ e ∈ s.logistics_logs ∧ e.order_id = oid) ∧
      r.payment_logs.Sorted (fun a b => a.logged_at ≤ b.logged_at) ∧
      r.logistics_logs.Sorted (fun a b => a.logged_at ≤ b.logged_at) ∧
      r.window_hours = w ∧
      (∀ w2, ∃ r2, get_complaint_context_logs s cid w2 = some r2 ∧
        r2.payment_logs = r.payment_logs ∧ r2.logistics_logs = r.logistics_logs) := by
  have hcm : c ∈ s.complaints := List.mem_of_find?_eq_some hc
  have hoid1 : 1 ≤ oid := by
    obtain ⟨-, horder⟩ := hwf.2.2 c hcm
    obtain ⟨o, ho, hoe⟩ := horder oid (by simp [hoid])
    have := hwf.2.1 o ho
    omega
  have htruthy : truthyInt c.order_id = true := by
    rw [hoid]
    show (oid != 0) = true
    simp only [bne_iff_ne, ne_eq]
    omega
  have hres : ∀ w3 : ℤ, get_complaint_context_logs s cid w3 = some
      { complaint := c
        window_hours := w3
        payment_logs := sortAscBy (fun e => e.logged_at)
          (s.payment_logs.filter (fun e => e.order_id == oid))
        logistics_logs := sortAscBy (fun e => e.logged_at)
          (s.logistics_logs.filter (fun e => e.order_id == oid))
        order := s.orders.find? (fun o => o.id == oid)
        user := s.users.find? (fun u => u.id == c.user_id) } := by
    intro w3
    rw [get_complaint_context_logs]
    simp only [hc]
    rw [if_pos htruthy]
    simp [hoid]
  refine ⟨_, hres w, sortAscBy_perm _ _, sortAscBy_perm _ _, ?_, ?_, ?_, ?_, rfl, ?_⟩
  · intro e
    rw [show (_ : List PaymentLog) = sortAscBy (fun e => e.logged_at)
      (s.payment_logs.filter (fun e => e.order_id == oid)) from rfl]
    rw [sortAscBy_mem, List.mem_filter]
    simp
  · intro e
    rw [show (_ : List LogisticsLog) = sortAscBy (fun e => e.logged_at)
      (s.logistics_logs.filter (fun e => e.order_id == oid)) from rfl]
    rw [sortAscBy_mem, List.mem_filter]
    simp
  · exact sortAscBy_sorted _ _
  · exact sortAscBy_sorted _ _
  · intro w2
    exact ⟨_, hres w2, rfl, rfl⟩

/-- Witness for C1: complaint 7 with order 15 in the fixture snapshot, at the
default window of 48 hours. -/
theorem claim_C1_context_full_history_witness :
    exStore.WF ∧
    exStore.complaints.find? (fun x => x.id == (7 : ℤ)) = some exComplaint7 ∧
    exComplaint7.order_id = some 15 ∧
    ∃ r, get_complaint_context_logs exStore 7 48 = some r ∧
      r.window_hours = 48 ∧
      (∀ e, e ∈ r.payment_logs ↔ e ∈ exStore.payment_logs ∧ e.order_id = 15) ∧
      (∀ e, e ∈ r.logistics_logs ↔ e ∈ exStore.logistics_logs ∧ e.order_id = 15) ∧
      r.payment_logs.Sorted (fun a b => a.logged_at ≤ b.logged_at) ∧
      r.logistics_logs.Sorted (fun a b => a.logged_at ≤ b.logged_at) ∧
      (∀ w2, ∃ r2, get_complaint_context_logs exStore 7 w2 = some r2 ∧
        r2.payment_logs = r.payment_logs ∧ r2.logistics_logs = r.logistics_logs) := by
  have hwf : exStore.WF := by unfold Store.WF; decide
  have hc : exStore.complaints.find? (fun x => x.id == (7 : ℤ)) =
      some exComplaint7 := by decide
  refine ⟨hwf, hc, rfl, ?_⟩
  obtain ⟨r, h1, _, _, h4, h5, h6, h7, h8, h9⟩ :=
    claim_C1_context_full_history exStore hwf 7 48 exComplaint7 15 hc rfl
  exact ⟨r, h1, h8, h4, h5, h6, h7, h9⟩

/-- C8: a complaint id absent from the store yields the NotFound result
(None); for a present id the returned user is non-null whenever the
referenced user record exists, and the returned order is null exactly when
the order_id of the complaint is null. -/
theorem claim_C8_context_notfound_and_joins (s : Store) (hwf : s.WF) (cid w : ℤ) :
    (s.complaints.find? (fun c => c.id == cid) = none →
      get_complaint_context_logs s cid w = none) ∧
    (∀ c, s.complaints.find? (fun x => x.id == cid) = some c →
      ∃ r, get_complaint_context_logs s cid w = some r ∧
        ((∃ u ∈ s.users, u.id = c.user_id) → r.user.isSome = true) ∧
        (r.order = none ↔ c.order_id = none)) := by
  constructor
  · intro h
    rw [get_complaint_context_logs]
    simp only [h]
  · intro c hc
    have hcm := List.mem_of_find?_eq_some hc
    have huser : (∃ u ∈ s.users, u.id = c.user_id) → (s.users.find?
        (fun u => u.id == c.user_id)).isSome = true := by
      intro hexists
      refine find?_isSome_of_exists _ _ ?_
      rcases hexists with ⟨u, hu, he⟩
      exact ⟨u, hu, by simp [he]⟩
    cases hcoid : c.order_id with
    | none =>
      have hfalse : truthyInt c.order_id = false := by rw [hcoid]; rfl
      have hres : get_complaint_context_logs s cid w = some
          { complaint := c, window_hours := w, payment_logs := [],
            logistics_logs := [], order := none,
            user := s.users.find? (fun u => u.id == c.user_id) } := by
        rw [get_complaint_context_logs]
        simp only [hc]
        rw [if_neg (by simp [hfalse])]
      exact ⟨_, hres, huser, by simp [hcoid]⟩
    | some oid =>
      obtain ⟨-, horder⟩ := hwf.2.2 c hcm
      obtain ⟨o, ho, hoe⟩ := horder oid (by simp [hcoid])
      have hoid1 : 1 ≤ oid := hoe ▸ hwf.2.1 o ho
      have htruthy : truthyInt c.order_id = true := by
        rw [hcoid]
        show (oid != 0) = true
        simp only [bne_iff_ne, ne_eq]
        omega
      have hres : get_complaint_context_logs s cid w = some
          { complaint := c
            window_hours := w
            payment_logs := sortAscBy (fun e => e.logged_at)
              (s.payment_logs.filter (fun e => e.order_id == oid))
            logistics_logs := sortAscBy (fun e => e.logged_at)
              (s.logistics_logs.filter (fun e => e.order_id == oid))
            order := s.orders.find? (fun x => x.id == oid)
            user := s.users.find? (fun u => u.id == c.user_id) } := by
        rw [get_complaint_context_logs]
        simp only [hc]
        rw [if_pos htruthy]
        simp [hcoid]
      refine ⟨_, hres, huser, ?_⟩
      have hsome : (s.orders.find? (fun x => x.id == oid)).isSome :=
        find?_isSome_of_exists _ _ ⟨o, ho, by simp [hoe]⟩
      obtain ⟨o2, ho2⟩ := Option.isSome_iff_exists.mp hsome
      simp [ho2, hcoid]
  
/-- Witness for C8: the absent id 123, complaint 9 without an order, and
complaint 7 with order 15. -/
theorem claim_C8_context_notfound_and_joins_witness :
    get_complaint_context_logs exStore 123 48 = none ∧
    (∃ r, get_complaint_context_logs exStore 9 48 = some r ∧
      r.user.isSome = true ∧ r.order = none) ∧
    (∃ r, get_complaint_context_logs exStore 7 48 = some r ∧
      r.user.isSome = true ∧ r.order ≠ none) := by
  have hwf : exStore.WF := by unfold Store.WF; decide
  refine ⟨?_, ?_, ?_⟩
  · exact (claim_C8_context_notfound_and_joins exStore hwf 123 48).1 (by decide)
  · obtain ⟨r, h1, h2, h3⟩ :=
      (claim_C8_context_notfound_and_joins exStore hwf 9 48).2 exComplaint9
        (by decide)
    exact ⟨r, h1, h2 (by decide), h3.mpr rfl⟩
  · obtain ⟨r, h1, h2, h3⟩ :=
      (claim_C8_context_notfound_and_joins exStore hwf 7 48).2 exComplaint7
        (by decide)
    refine ⟨r, h1, h2 (by decide), fun h => ?_⟩
    have := h3.mp h
    simp [exComplaint7] at this

/-- C7: for a stored order, the delivery-time row anchors shipped_at at the
earliest dispatched logistics event and delivered_at at the latest delivered
event, derives the three hour durations from those anchors, and reports null
(never zero) for every duration with a missing anchor — in particular
processing_hours is null whenever no dispatched event exists, whatever the
order status. -/
theorem claim_C7_delivery_time_anchors (s : Store) (oid : ℤ) (o : OrderR)
    (h : s.orders.find? (fun x => x.id == oid) = some o) :
    ∃ r, get_order_delivery_time s oid = some r ∧
      r.ordered_at = o.ordered_at ∧
      (∀ e, e ∈ s.logistics_logs.filter
          (fun e => e.order_id == o.id && e.event_type == "dispatched") ↔
        e ∈ s.logistics_logs ∧ e.order_id = o.id ∧ e.event_type = "dispatched") ∧
      (r.shipped_at = none ↔ s.logistics_logs.filter
          (fun e => e.order_id == o.id && e.event_type == "dispatched") = []) ∧
      (∀ t, r.shipped_at = some t →
        (∃ e ∈ s.logistics_logs.filter
            (fun e => e.order_id == o.id && e.event_type == "dispatched"),
          e.logged_at = t) ∧
        ∀ e ∈ s.logistics_logs.filter
            (fun e => e.order_id == o.id && e.event_type == "dispatched"),
          t ≤ e.logged_at) ∧
      (r.delivered_at = none ↔ s.logistics_logs.filter
          (fun e => e.order_id == o.id && e.event_type == "delivered") = []) ∧
      (∀ t, r.delivered_at = some t →
        (∃ e ∈ s.logistics_logs.filter
            (fun e => e.order_id == o.id && e.event_type == "delivered"),
          e.logged_at = t) ∧
        ∀ e ∈ s.logistics_logs.filter
            (fun e => e.order_id == o.id && e.event_type == "delivered"),
          e.logged_at ≤ t) ∧
      r.processing_hours =
        r.shipped_at.map (fun t => round1 ((t - o.ordered_at) * 24)) ∧
      r.shipping_hours = (match r.delivered_at, r.shipped_at with
        | some d, some t => some (round1 ((d - t) * 24))
        | _, _ => none) ∧
      r.total_hours =
        r.delivered_at.map (fun d => round1 ((d - o.ordered_at) * 24)) ∧
      (r.shipped_at = none → r.processing_hours = none ∧ r.shipping_hours = none) ∧
      (r.delivered_at = none → r.shipping_hours = none ∧ r.total_hours = none) := by
  have hres : get_order_delivery_time s oid = some
      { order_id := o.id
        item := o.item
        tracking_number := o.tracking_number
        ordered_at := o.ordered_at
        shipped_at := orderDispatchedAt s o.id
        delivered_at := orderDeliveredAt s o.id
        processing_hours := (orderDispatchedAt s o.id).map
          (fun t => round1 ((t - o.ordered_at) * 24))
        shipping_hours := match orderDeliveredAt s o.id, orderDispatchedAt s o.id with
          | some d, some t => some (round1 ((d - t) * 24))
          | _, _ => none
        total_hours := (orderDeliveredAt s o.id).map
          (fun d => round1 ((d - o.ordered_at) * 24)) } := by
    rw [get_order_delivery_time, h]
    rfl
  refine ⟨_, hres, rfl, ?_, ?_, ?_, ?_, ?_, rfl, rfl, rfl, ?_, ?_⟩
  · intro e
    simp [List.mem_filter, and_assoc]
  · show orderDispatchedAt s o.id = none ↔ _
    rw [orderDispatchedAt, sqlMin_eq_none_iff]
    simp
  · intro t ht
    have ht3 : sqlMin ((s.logistics_logs.filter (fun e =>
        e.order_id == o.id && e.event_type == "dispatched")).map
        (fun e => e.logged_at)) = some t := ht
    obtain ⟨hmem, hle⟩ := sqlMin_eq_some _ _ ht3
    obtain ⟨e, he, hke⟩ := List.mem_map.mp hmem
    exact ⟨⟨e, he, hke⟩, fun e2 he2 => hle _ (List.mem_map_of_mem _ he2)⟩
  · show orderDeliveredAt s o.id = none ↔ _
    rw [orderDeliveredAt, sqlMax_eq_none_iff]
    simp
  · intro t ht
    have ht3 : sqlMax ((s.logistics_logs.filter (fun e =>
        e.order_id == o.id && e.event_type == "delivered")).map
        (fun e => e.logged_at)) = some t := ht
    obtain ⟨hmem, hle⟩ := sqlMax_eq_some _ _ ht3
    obtain ⟨e, he, hke⟩ := List.mem_map.mp hmem
    exact ⟨⟨e, he, hke⟩, fun e2 he2 => hle _ (List.mem_map_of_mem _ he2)⟩
  · intro hnone
    have hn : orderDispatchedAt s o.id = none := hnone
    constructor
    · show (orderDispatchedAt s o.id).map _ = none
      rw [hn]
      rfl
    · show (match orderDeliveredAt s o.id, orderDispatchedAt s o.id with
        | some d, some t => some (round1 ((d - t) * 24))
        | _, _ => none) = none
      rw [hn]
      cases orderDeliveredAt s o.id <;> rfl
  · intro hnone
    have hn : orderDeliveredAt s o.id = none := hnone
    constructor
    · show (match orderDeliveredAt s o.id, orderDispatchedAt s o.id with
        | some d, some t => some (round1 ((d - t) * 24))
        | _, _ => none) = none
      rw [hn]
    · show (orderDeliveredAt s o.id).map _ = none
      rw [hn]
      rfl

/-- Witness for C7 at the fixture order 15: shipped at 101, delivered at 103,
processing 24 h, shipping 48 h, total 72 h. -/
theorem claim_C7_delivery_time_anchors_witness :
    exStore.orders.find? (fun x => x.id == (15 : ℤ)) = some exOrder15 ∧
    ∃ r, get_order_delivery_time exStore 15 = some r ∧
      r.shipped_at = some 101 ∧ r.delivered_at = some 103 ∧
      r.processing_hours = some 24 ∧ r.shipping_hours = some 48 ∧
      r.total_hours = some 72 ∧
      r.processing_hours =
        r.shipped_at.map (fun t => round1 ((t - exOrder15.ordered_at) * 24)) := by
  have hfind : exStore.orders.find? (fun x => x.id == (15 : ℤ)) = some exOrder15 := by
    decide
  have hd : orderDispatchedAt exStore exOrder15.id = some 101 := by decide
  have hv : orderDeliveredAt exStore exOrder15.id = some 103 := by decide
  obtain ⟨r, h1, h2, h3, h4, h5, h6, h7, h8, h9, h10, h11, h12⟩ :=
    claim_C7_delivery_time_anchors exStore 15 exOrder15 hfind
  have hval : get_order_delivery_time exStore 15 = some
      { order_id := exOrder15.id
        item := exOrder15.item
        tracking_number := exOrder15.tracking_number
        ordered_at := exOrder15.ordered_at
        shipped_at := orderDispatchedAt exStore exOrder15.id
        delivered_at := orderDeliveredAt exStore exOrder15.id
        processing_hours := (orderDispatchedAt exStore exOrder15.id).map
          (fun t => round1 ((t - exOrder15.ordered_at) * 24))
        shipping_hours := match orderDeliveredAt exStore exOrder15.id,
            orderDispatchedAt exStore exOrder15.id with
          | some d, some t => some (round1 ((d - t) * 24))
          | _, _ => none
        total_hours := (orderDeliveredAt exStore exOrder15.id).map
          (fun d => round1 ((d - exOrder15.ordered_at) * 24)) } := by
    rw [get_order_delivery_time, hfind]
    rfl
  have hr : r = _ := Option.some_injective _ (h1.symm.trans hval)
  refine ⟨hfind, r, h1, ?_, ?_, ?_, ?_, ?_, ?_⟩
  · rw [hr, hd]
  · rw [hr, hv]
  · rw [hr]
    show (orderDispatchedAt exStore exOrder15.id).map
      (fun t => round1 ((t - exOrder15.ordered_at) * 24)) = some 24
    rw [hd]
    show some (round1 ((101 - exOrder15.ordered_at) * 24)) = some 24
    norm_num [exOrder15, round1, round_eq]
  · rw [hr]
    show (match orderDeliveredAt exStore exOrder15.id,
        orderDispatchedAt exStore exOrder15.id with
      | some d, some t => some (round1 ((d - t) * 24))
      | _, _ => none) = some 48
    rw [hd, hv]
    show some (round1 ((103 - 101) * 24)) = some 48
    norm_num [round1, round_eq]
  · rw [hr]
    show (orderDeliveredAt exStore exOrder15.id).map
      (fun d => round1 ((d - exOrder15.ordered_at) * 24)) = some 72
    rw [hv]
    show some (round1 ((103 - exOrder15.ordered_at) * 24)) = some 72
    norm_num [exOrder15, round1, round_eq]
  · rw [hr, hd]

/-- C10: a user with no orders is dropped by the INNER JOIN of
get_top_customers for every limit value, while get_user_lifetime_value still
returns a row for the same user, with zero order count, zero spend totals and
null first and last order dates (LEFT JOIN semantics). -/
theorem claim_C10_inner_vs_left_join (s : Store) (u : UserR) (limit : ℤ)
    (hu : u ∈ s.users)
    (hnoorder : ∀ o ∈ s.orders, o.user_id ≠ u.id) :
    (∀ r ∈ get_top_customers s limit, r.user_id ≠ u.id) ∧
    (∃ row, get_user_lifetime_value s u.id = some row ∧
      row.total_orders = 0 ∧ row.total_spent = 0 ∧ row.avg_order_value = 0 ∧
      row.first_order = none ∧ row.last_order = none) := by
  constructor
  · intro r hr heq
    have hr2 : r ∈ sortDescBy (fun x => x.total_spent) (s.users.filterMap (fun v =>
        let os := s.orders.filter (fun o => o.user_id == v.id)
        if os.isEmpty then none
        else
          let amounts := os.map (fun o => o.total_amount)
          some { user_id := v.id
                 name := v.name
                 email := v.email
                 city := v.city
                 order_count := os.length
                 total_spent := round2 amounts.sum
                 avg_order_value := round2 (amounts.sum / amounts.length)
                 last_order_at := ((os.map (fun o => o.ordered_at)).max?).getD 0 })) := by
      rw [get_top_customers] at hr
      unfold sqlLimit at hr
      split at hr
      · exact hr
      · exact List.mem_of_mem_take hr
    have hr3 := (sortDescBy_mem _ _ r).mp hr2
    obtain ⟨u2, hu2, hsome⟩ := List.mem_filterMap.mp hr3
    by_cases hemp : (s.orders.filter (fun o => o.user_id == u2.id)).isEmpty = true
    · rw [if_pos hemp] at hsome
      cases hsome
    · rw [if_neg hemp] at hsome
      have hru : r.user_id = u2.id := by
        rw [← Option.some_injective _ hsome]
      cases hfe : s.orders.filter (fun o => o.user_id == u2.id) with
      | nil => rw [hfe] at hemp; exact hemp rfl
      | cons a t =>
        have ha : a ∈ s.orders.filter (fun o => o.user_id == u2.id) := by
          rw [hfe]; exact List.mem_cons_self a t
        rw [List.mem_filter] at ha
        refine hnoorder a ha.1 ?_
        have ha2 : a.user_id = u2.id := by simpa using ha.2
        rw [ha2, ← hru, heq]
  · cases hf : s.users.find? (fun x => x.id == u.id) with
    | none =>
      exact absurd (by simp : (fun (x : UserR) => x.id == u.id) u = true)
        (List.find?_eq_none.mp hf u hu)
    | some u2 =>
      have hid : u2.id = u.id := by simpa using List.find?_some hf
      have hfilter : s.orders.filter (fun o => o.user_id == u2.id) = [] := by
        rw [List.eq_nil_iff_forall_not_mem]
        intro o ho
        rw [List.mem_filter] at ho
        exact hnoorder o ho.1 (by simpa [hid] using ho.2)
      have hres : get_user_lifetime_value s u.id = some
          { id := u2.id
            name := u2.name
            email := u2.email
            city := u2.city
            state := u2.state
            member_since := u2.created_at
            total_orders := (s.orders.filter (fun o => o.user_id == u2.id)).length
            total_spent := round2
              (((s.orders.filter (fun o => o.user_id == u2.id)).map
                (fun o => o.total_amount)).sum)
            avg_order_value := round2
              ((sqlAvg ((s.orders.filter (fun o => o.user_id == u2.id)).map
                (fun o => o.total_amount))).getD 0)
            first_order := sqlMin ((s.orders.filter (fun o => o.user_id == u2.id)).map
              (fun o => o.ordered_at))
            last_order := sqlMax ((s.orders.filter (fun o => o.user_id == u2.id)).map
              (fun o => o.ordered_at))
            total_complaints := (s.complaints.filter
              (fun c => c.user_id == u2.id)).length
            open_complaints := (s.complaints.filter
              (fun c => c.user_id == u2.id)).countP (fun c =>
                c.status == "open" || c.status == "investigating" ||
                c.status == "waiting_customer") } := by
        rw [get_user_lifetime_value, hf]
        rfl
      refine ⟨_, hres, ?_, ?_, ?_, ?_, ?_⟩
      · show (s.orders.filter (fun o => o.user_id == u2.id)).length = 0
        rw [hfilter]
        rfl
      · show round2 (((s.orders.filter (fun o => o.user_id == u2.id)).map
          (fun o => o.total_amount)).sum) = 0
        rw [hfilter]
        norm_num [round2]
      · show round2 ((sqlAvg ((s.orders.filter (fun o => o.user_id == u2.id)).map
          (fun o => o.total_amount))).getD 0) = 0
        rw [hfilter]
        norm_num [round2, sqlAvg]
      · show sqlMin ((s.orders.filter (fun o => o.user_id == u2.id)).map
          (fun o => o.ordered_at)) = none
        rw [hfilter]
        rfl
      · show sqlMax ((s.orders.filter (fun o => o.user_id == u2.id)).map
          (fun o => o.ordered_at)) = none
        rw [hfilter]
        rfl

/-- Witness for C10: fixture user 6 has no orders. -/
theorem claim_C10_inner_vs_left_join_witness :
    exUser6 ∈ exStore.users ∧
    (∀ o ∈ exStore.orders, o.user_id ≠ exUser6.id) ∧
    (∀ r ∈ get_top_customers exStore 10, r.user_id ≠ exUser6.id) ∧
    (∃ row, get_user_lifetime_value exStore exUser6.id = some row ∧
      row.total_orders = 0 ∧ row.total_spent = 0 ∧
      row.first_order = none ∧ row.last_order = none) := by
  have h1 : exUser6 ∈ exStore.users := by decide
  have h2 : ∀ o ∈ exStore.orders, o.user_id ≠ exUser6.id := by decide
  obtain ⟨ha, row, hb, hc, hd, he, hf, hg⟩ :=
    claim_C10_inner_vs_left_join exStore exUser6 10 h1 h2
  exact ⟨h1, h2, ha, row, hb, hc, hd, hf, hg⟩

/-- The counterexample snapshot has one carrier holding all three events. -/
theorem cex_filter : cexStore.logistics_logs.filter
    (fun e => e.carrier == "BlueDart") = [cexLogA, cexLogB, cexLogC] := by
  decide

/-- Order 1 of the counterexample spans 24 hours. -/
theorem cex_span1 : orderSpanHours cexStore 1 = some 24 := by
  have h1 : orderDeliveredAt cexStore 1 = some 1 := by decide
  have h2 : orderFirstEvent cexStore 1 = some 0 := by decide
  rw [orderSpanHours, h1, h2]
  norm_num

/-- Order 2 of the counterexample spans 0 hours. -/
theorem cex_span2 : orderSpanHours cexStore 2 = some 0 := by
  have h1 : orderDeliveredAt cexStore 2 = some 5 := by decide
  have h2 : orderFirstEvent cexStore 2 = some 5 := by decide
  rw [orderSpanHours, h1, h2]
  norm_num

/-- The per-event span column of the counterexample carrier. -/
theorem cex_spans : (cexStore.logistics_logs.filter
    (fun e => e.carrier == "BlueDart")).filterMap (eventSpanHours cexStore) =
    [24, 24, 0] := by
  rw [cex_filter]
  simp [List.filterMap_cons, eventSpanHours, cexLogA, cexLogB, cexLogC,
    cex_span1, cex_span2]


/-- Full evaluation of get_carrier_performance on the counterexample: the AVG
runs over the three event rows, giving 16.0 rather than the per-order 12.0. -/
theorem cex_carrier_eval : get_carrier_performance cexStore = [cexRow] := by
  have hg : groupKeys (fun e => e.carrier) cexStore.logistics_logs =
      ["BlueDart"] := by decide
  rw [get_carrier_performance, hg]
  simp only [List.map_cons, List.map_nil]
  rw [cex_filter]
  have hg2 : groupKeys (fun e => e.order_id) [cexLogA, cexLogB, cexLogC] = [1, 2] := by
    decide
  rw [hg2]
  have hspans : List.filterMap (eventSpanHours cexStore) [cexLogA, cexLogB, cexLogC] =
      [24, 24, 0] := by
    have := cex_spans
    rwa [cex_filter] at this
  rw [hspans]
  have havg : (sqlAvg [24, 24, 0]).map round1 = some 16 := by
    norm_num [sqlAvg, round1, round_eq]
  rw [havg]
  simp [sortDescBy, List.insertionSort, cexRow]


/-- The claimed per-order-weighted average of the counterexample carrier is
12.0: the two qualifying orders span 24 and 0 hours. -/
theorem cex_spec_eval : carrierAvgPerOrderSpec cexStore "BlueDart" = some 12 := by
  rw [carrierAvgPerOrderSpec]
  rw [cex_filter]
  have hg2 : groupKeys (fun e => e.order_id) [cexLogA, cexLogB, cexLogC] = [1, 2] := by
    decide
  rw [hg2]
  have hspans : List.filterMap (orderSpanHours cexStore) [1, 2] = [24, 0] := by
    simp [List.filterMap_cons, cex_span1, cex_span2]
  rw [hspans]
  norm_num [sqlAvg, round1, round_eq]

/-- C2 counterexample: on the concrete snapshot the reported
avg_delivery_hours is 16.0, while the average of the per-order spans across
the orders with both anchors (each qualifying order weighted once, as the
claim states) is 12.0 — the claim fails on the code. -/
theorem claim_C2_counterexample :
    (get_carrier_performance cexStore).map
      (fun r => (r.carrier, r.avg_delivery_hours)) = [("BlueDart", some 16)] ∧
    carrierAvgPerOrderSpec cexStore "BlueDart" = some 12 ∧
    ∃ r ∈ get_carrier_performance cexStore,
      r.avg_delivery_hours ≠ carrierAvgPerOrderSpec cexStore r.carrier := by
  refine ⟨by rw [cex_carrier_eval]; rfl, cex_spec_eval, ?_⟩
  refine ⟨cexRow, by rw [cex_carrier_eval]; exact List.mem_singleton.mpr rfl, ?_⟩
  show cexRow.avg_delivery_hours ≠ carrierAvgPerOrderSpec cexStore cexRow.carrier
  rw [show cexRow.carrier = "BlueDart" from rfl, cex_spec_eval,
    show cexRow.avg_delivery_hours = some 16 from rfl]
  intro h
  rw [Option.some_inj] at h
  norm_num at h

/-- A SQL MIN over a list with a member is not NULL. -/
theorem sqlMin_isSome_of_mem (l : List ℚ) (x : ℚ) (hx : x ∈ l) :
    ∃ m, sqlMin l = some m := by
  cases l with
  | nil => cases hx
  | cons a t => exact ⟨_, rfl⟩

/-- C2 amended: get_carrier_performance counts the events and distinct orders
of each carrier, and its avg_delivery_hours is the rounded average of the
per-order span taken over the individual event rows of the carrier whose
order has a delivered event — each qualifying order therefore weighted by its
event count for the carrier, not once — with NULL (never zero or an error)
exactly when no event row qualifies; an event row qualifies precisely when
its order has a delivered event, since its first-event anchor always
exists. -/
theorem claim_C2_avg_is_event_weighted (s : Store) (r : CarrierPerfR)
    (hr : r ∈ get_carrier_performance s) :
    r.total_events =
      (s.logistics_logs.filter (fun e => e.carrier == r.carrier)).length ∧
    r.orders_handled = (groupKeys (fun e => e.order_id)
      (s.logistics_logs.filter (fun e => e.carrier == r.carrier))).length ∧
    (r.avg_delivery_hours = none ↔
      (s.logistics_logs.filter (fun e => e.carrier == r.carrier)).filterMap
        (eventSpanHours s) = []) ∧
    (∀ q, (s.logistics_logs.filter (fun e => e.carrier == r.carrier)).filterMap
        (eventSpanHours s) = q → q ≠ [] →
      r.avg_delivery_hours = some (round1 (q.sum / q.length))) ∧
    (∀ e ∈ s.logistics_logs, e.carrier = r.carrier →
      (eventSpanHours s e = none ↔ orderDeliveredAt s e.order_id = none)) := by
  obtain ⟨c, hc, hrc⟩ := List.mem_map.mp ((sortDescBy_mem _ _ r).mp hr)
  subst hrc
  refine ⟨rfl, rfl, ?_, ?_, ?_⟩
  · show (sqlAvg ((s.logistics_logs.filter (fun e => e.carrier == c)).filterMap
      (eventSpanHours s))).map round1 = none ↔ _
    rw [sqlAvg]
    cases hq : (s.logistics_logs.filter (fun e => e.carrier == c)).filterMap
        (eventSpanHours s) with
    | nil => simp
    | cons a t => simp
  · intro q hq hne
    show (sqlAvg ((s.logistics_logs.filter (fun e => e.carrier == c)).filterMap
      (eventSpanHours s))).map round1 = _
    rw [hq, sqlAvg, if_neg (by simpa using hne)]
    rfl
  · intro e he hec
    show eventSpanHours s e = none ↔ _
    rw [eventSpanHours, orderSpanHours]
    obtain ⟨f, hf⟩ := sqlMin_isSome_of_mem
      ((s.logistics_logs.filter (fun x => x.order_id == e.order_id)).map
        (fun x => x.logged_at)) e.logged_at
      (List.mem_map_of_mem _ (by rw [List.mem_filter]; exact ⟨he, by simp⟩))
    rw [show orderFirstEvent s e.order_id = some f from hf]
    cases hd : orderDeliveredAt s e.order_id <;> simp

/-- Witness for C2 amended, at the counterexample carrier row. -/
theorem claim_C2_avg_is_event_weighted_witness :
    cexRow ∈ get_carrier_performance cexStore ∧
    cexRow.avg_delivery_hours = some (round1 (((24 : ℚ) + 24 + 0) / 3)) := by
  have hmem : cexRow ∈ get_carrier_performance cexStore := by
    rw [cex_carrier_eval]
    exact List.mem_singleton.mpr rfl
  refine ⟨hmem, ?_⟩
  have h := (claim_C2_avg_is_event_weighted cexStore cexRow hmem).2.2.2.1
    [24, 24, 0] cex_spans (by simp)
  rw [h]
  norm_num
